import Mathlib

/-!
# Verification of the RLBot python interface core

A shallow embedding of the core of the `rlbot` python interface
(`rlbot/interface.py`, `rlbot/managers/{bot,script,hivemind,match}.py`,
`rlbot/utils/gateway.py`) together with proofs about the embedded
definitions.

Conventions of the embedding:
* bytes are `Nat` values below 256; byte strings are `List Nat`;
* the TCP stream is a `List Nat` of pending bytes; reading consumes a
  prefix, a short read yields `none` (Python raises `EOFError`);
* fallible operations return `Option`/`Except`;
* user callbacks and log output are recorded as events in a trace.
-/

/-! ## Frame codec (`rlbot/interface.py`) -/

/-- `SocketDataType` from `interface.py`: the closed 16-bit message-kind
enumeration of the wire protocol. -/
inductive SocketDataType where
  | NONE
  | GAME_PACKET
  | FIELD_INFO
  | START_COMMAND
  | MATCH_CONFIGURATION
  | PLAYER_INPUT
  | DESIRED_GAME_STATE
  | RENDER_GROUP
  | REMOVE_RENDER_GROUP
  | MATCH_COMMUNICATION
  | BALL_PREDICTION
  | CONNECTION_SETTINGS
  | STOP_COMMAND
  | SET_LOADOUT
  | INIT_COMPLETE
  | CONTROLLABLE_TEAM_INFO
deriving DecidableEq, Repr

/-- The numeric value of each `SocketDataType` member, as assigned in
`interface.py`. -/
def SocketDataType.toVal : SocketDataType → Nat
  | .NONE => 0
  | .GAME_PACKET => 1
  | .FIELD_INFO => 2
  | .START_COMMAND => 3
  | .MATCH_CONFIGURATION => 4
  | .PLAYER_INPUT => 5
  | .DESIRED_GAME_STATE => 6
  | .RENDER_GROUP => 7
  | .REMOVE_RENDER_GROUP => 8
  | .MATCH_COMMUNICATION => 9
  | .BALL_PREDICTION => 10
  | .CONNECTION_SETTINGS => 11
  | .STOP_COMMAND => 12
  | .SET_LOADOUT => 13
  | .INIT_COMPLETE => 14
  | .CONTROLLABLE_TEAM_INFO => 15

/-- The Python call `SocketDataType(type_int)`: looks up the enum member
with the given value, `none` models the `ValueError` raised on an unknown
value. -/
def SocketDataType.ofVal : Nat → Option SocketDataType
  | 0 => some .NONE
  | 1 => some .GAME_PACKET
  | 2 => some .FIELD_INFO
  | 3 => some .START_COMMAND
  | 4 => some .MATCH_CONFIGURATION
  | 5 => some .PLAYER_INPUT
  | 6 => some .DESIRED_GAME_STATE
  | 7 => some .RENDER_GROUP
  | 8 => some .REMOVE_RENDER_GROUP
  | 9 => some .MATCH_COMMUNICATION
  | 10 => some .BALL_PREDICTION
  | 11 => some .CONNECTION_SETTINGS
  | 12 => some .STOP_COMMAND
  | 13 => some .SET_LOADOUT
  | 14 => some .INIT_COMPLETE
  | 15 => some .CONTROLLABLE_TEAM_INFO
  | _ => none

/-- `SocketMessage` from `interface.py`: a decoded frame. -/
structure SocketMessage where
  type : SocketDataType
  data : List Nat
deriving DecidableEq, Repr

/-- `MsgHandlingResult` from `interface.py`. -/
inductive MsgHandlingResult where
  | TERMINATED
  | NO_INCOMING_MSGS
  | MORE_MSGS_QUEUED
deriving DecidableEq, Repr

/-- `MAX_SIZE_2_BYTES = 2**16 - 1` from `interface.py`. -/
def MAX_SIZE_2_BYTES : Nat := 2 ^ 16 - 1

/-- `RLBOT_SERVER_PORT = 23234` from `interface.py`. -/
def RLBOT_SERVER_PORT : Nat := 23234

/-- `SocketRelay._int_to_bytes`: `val.to_bytes(2, byteorder="big")`. Both
call sites guarantee `val < 2^16` (the enum value is at most 15 and the
size has been checked against `MAX_SIZE_2_BYTES`), so the Python
`OverflowError` path is unreachable. -/
def int_to_bytes (val : Nat) : List Nat :=
  [val / 256, val % 256]

/-- `int.from_bytes(_, "big")` over a byte string. -/
def int_from_bytes (bs : List Nat) : Nat :=
  bs.foldl (fun acc b => acc * 256 + b) 0

/-- `SocketRelay._read_exact(n)`: loop over `recv_into` until `n` bytes
have been delivered; returns the bytes read and the remaining stream.
`none` models `EOFError` when the stream ends before `n` bytes arrive. -/
def read_exact (n : Nat) (s : List Nat) : Option (List Nat × List Nat) :=
  if s.length < n then none else some (s.take n, s.drop n)

/-- `SocketRelay.read_message`: two big-endian header reads (type, size),
then exactly `size` body bytes, then the `SocketDataType(type_int)`
conversion. Returns the decoded message and the unconsumed stream. -/
def read_message (s : List Nat) : Option (SocketMessage × List Nat) :=
  match read_exact 2 s with
  | none => none
  | some (tb, s1) =>
    match read_exact 2 s1 with
    | none => none
    | some (sb, s2) =>
      match read_exact (int_from_bytes sb) s2 with
      | none => none
      | some (data, s3) =>
        match SocketDataType.ofVal (int_from_bytes tb) with
        | none => none
        | some t => some (⟨t, data⟩, s3)

/-- `SocketRelay.send_bytes`: rejects bodies above `MAX_SIZE_2_BYTES`
(logging an error and emitting nothing, modelled by `none`); otherwise
emits the 4-byte header followed by the body. -/
def send_bytes (data : List Nat) (data_type : SocketDataType) : Option (List Nat) :=
  if MAX_SIZE_2_BYTES < data.length then none
  else some (int_to_bytes data_type.toVal ++ int_to_bytes data.length ++ data)

lemma int_from_bytes_int_to_bytes (v : Nat) :
    int_from_bytes (int_to_bytes v) = v := by
  simp only [int_to_bytes, int_from_bytes, List.foldl]
  omega

lemma SocketDataType.ofVal_toVal (t : SocketDataType) :
    SocketDataType.ofVal t.toVal = some t := by
  cases t <;> rfl

lemma SocketDataType.toVal_lt (t : SocketDataType) : t.toVal < 2 ^ 16 := by
  cases t <;> decide

lemma read_exact_append (pre rest : List Nat) :
    read_exact pre.length (pre ++ rest) = some (pre, rest) := by
  simp [read_exact, List.take_left, List.drop_left]

lemma read_exact_two (v : Nat) (tail : List Nat) :
    read_exact 2 (int_to_bytes v ++ tail) = some (int_to_bytes v, tail) := by
  simpa using read_exact_append (int_to_bytes v) tail

/-- **C4.** Frame round-trip: a body of at most 65535 bytes encodes to a
frame that decodes back to exactly the same kind and body (with the rest
of the stream untouched), including zero-length bodies; a body above
65535 bytes is rejected by `send_bytes` and no bytes are emitted. -/
theorem claim4_frame_roundtrip (t : SocketDataType) (data rest : List Nat) :
    (data.length ≤ MAX_SIZE_2_BYTES →
      ∃ frame, send_bytes data t = some frame ∧
        read_message (frame ++ rest) = some (⟨t, data⟩, rest)) ∧
    (MAX_SIZE_2_BYTES < data.length → send_bytes data t = none) := by
  constructor
  · intro hle
    refine ⟨int_to_bytes t.toVal ++ int_to_bytes data.length ++ data, ?_, ?_⟩
    · simp [send_bytes, Nat.not_lt.mpr hle]
    · simp only [read_message, List.append_assoc, read_exact_two,
        int_from_bytes_int_to_bytes, read_exact_append, SocketDataType.ofVal_toVal]
  · intro hgt
    simp [send_bytes, hgt]

/-- Witness for C4 at a concrete frame: kind 9, two-byte body, and a
rejected 65536-byte body. -/
theorem claim4_frame_roundtrip_witness :
    (∃ frame, send_bytes [7, 8] .MATCH_COMMUNICATION = some frame ∧
      read_message (frame ++ [1]) = some (⟨.MATCH_COMMUNICATION, [7, 8]⟩, [1])) ∧
    send_bytes (List.replicate 65536 0) .GAME_PACKET = none := by
  constructor
  · exact (claim4_frame_roundtrip .MATCH_COMMUNICATION [7, 8] [1]).1 (by decide)
  · exact (claim4_frame_roundtrip .GAME_PACKET (List.replicate 65536 0) []).2
      (by simp only [List.length_replicate]; decide)

/-! ## Observer dispatch (`SocketRelay.handle_incoming_message`) -/

/-- The eight observer lists of a `SocketRelay`. Handlers are identified
by opaque `Nat` tokens; the payload each one receives is determined by
the list it sits in. -/
structure Handlers where
  on_connect_handlers : List Nat
  packet_handlers : List Nat
  field_info_handlers : List Nat
  match_config_handlers : List Nat
  match_comm_handlers : List Nat
  ball_prediction_handlers : List Nat
  controllable_team_info_handlers : List Nat
  raw_handlers : List Nat
deriving DecidableEq, Repr

/-- One observer invocation, tagged with whether the callback came from
`raw_handlers` or from the kind-specific list. -/
inductive HandlerCall where
  | raw (h : Nat)
  | typed (h : Nat)
deriving DecidableEq, Repr

/-- The kind-specific handler list consulted by the `match` statement of
`handle_incoming_message`; kinds without a list (the `case _: pass` arm)
yield no calls. -/
def handlers_for_kind (r : Handlers) : SocketDataType → List Nat
  | .GAME_PACKET => r.packet_handlers
  | .FIELD_INFO => r.field_info_handlers
  | .MATCH_CONFIGURATION => r.match_config_handlers
  | .MATCH_COMMUNICATION => r.match_comm_handlers
  | .BALL_PREDICTION => r.ball_prediction_handlers
  | .CONTROLLABLE_TEAM_INFO => r.controllable_team_info_handlers
  | _ => []

/-- A `for handler in list: handler(msg)` loop: invokes the callbacks in
list order, appending each invocation to the log. -/
def run_handler_list (mk : Nat → HandlerCall) (hs : List Nat)
    (log : List HandlerCall) : List HandlerCall :=
  match hs with
  | [] => log
  | h :: rest => run_handler_list mk rest (log ++ [mk h])

/-- `SocketRelay.handle_incoming_message`: first the `raw_handlers` loop
over every decoded message, then the `match` on the message type — a
`NONE` frame returns `TERMINATED` with no typed dispatch, every other
kind runs its handler list (empty for kinds without one) and returns
`MORE_MSGS_QUEUED`. The second component is the ordered invocation log. -/
def handle_incoming_message (r : Handlers) (m : SocketMessage) :
    MsgHandlingResult × List HandlerCall :=
  let log := run_handler_list .raw r.raw_handlers []
  match m.type with
  | .NONE => (.TERMINATED, log)
  | t => (.MORE_MSGS_QUEUED, run_handler_list .typed (handlers_for_kind r t) log)

lemma run_handler_list_eq (mk : Nat → HandlerCall) :
    ∀ (hs : List Nat) (log : List HandlerCall),
      run_handler_list mk hs log = log ++ hs.map mk := by
  intro hs
  induction hs with
  | nil => intro log; simp [run_handler_list]
  | cons h rest ih =>
    intro log
    rw [run_handler_list, ih, List.map_cons, List.append_assoc]
    rfl

lemma handle_incoming_message_log (r : Handlers) (m : SocketMessage) :
    (handle_incoming_message r m).2 =
      r.raw_handlers.map .raw ++ (handlers_for_kind r m.type).map .typed := by
  rcases m with ⟨t, data⟩
  cases t <;>
    simp [handle_incoming_message, run_handler_list_eq, handlers_for_kind]

lemma mem_of_getElem?_raw_typed (xs ys : List Nat) (i : Nat) (a : Nat)
    (h : (xs.map HandlerCall.raw ++ ys.map HandlerCall.typed)[i]? =
      some (.raw a)) : i < xs.length := by
  by_contra hlt
  push_neg at hlt
  rw [List.getElem?_append_right (by simpa using hlt)] at h
  rcases List.getElem?_eq_some_iff.mp h with ⟨hb, heq⟩
  rw [List.getElem_map] at heq
  exact HandlerCall.noConfusion heq

/-- **C5.** Dispatch order: for every decoded message, the invocation log
is exactly the raw handlers in registration order followed by the
kind-specific handlers in registration order; in particular every raw
invocation precedes every typed invocation, and within each list
registration (append) order is preserved. -/
theorem claim5_dispatch_order (r : Handlers) (m : SocketMessage) :
    (handle_incoming_message r m).2 =
      r.raw_handlers.map .raw ++ (handlers_for_kind r m.type).map .typed ∧
    (∀ (i j a b : Nat), (handle_incoming_message r m).2[i]? = some (HandlerCall.raw a) →
      (handle_incoming_message r m).2[j]? = some (HandlerCall.typed b) → i < j) := by
  refine ⟨handle_incoming_message_log r m, ?_⟩
  intro i j a b hi hj
  rw [handle_incoming_message_log] at hi hj
  have hilt := mem_of_getElem?_raw_typed _ _ _ _ hi
  by_contra hij
  push_neg at hij
  have hjlt : j < (r.raw_handlers.map HandlerCall.raw).length := by
    simpa using lt_of_le_of_lt hij (by simpa using hilt)
  rw [List.getElem?_append_left hjlt] at hj
  rcases List.getElem?_eq_some_iff.mp hj with ⟨hb, heq⟩
  rw [List.getElem_map] at heq
  exact HandlerCall.noConfusion heq

/-- Witness for C5: a relay with one raw handler and two packet handlers
dispatching a `GamePacket`; handler 5 (raw) precedes handler 7 (typed),
and 7 precedes 8. -/
theorem claim5_dispatch_order_witness :
    (handle_incoming_message ⟨[], [7, 8], [], [], [], [], [], [5]⟩
        ⟨.GAME_PACKET, []⟩).2 = [.raw 5, .typed 7, .typed 8] ∧ (0 : Nat) < 1 := by
  constructor
  · rw [(claim5_dispatch_order ⟨[], [7, 8], [], [], [], [], [], [5]⟩
      ⟨.GAME_PACKET, []⟩).1]
    rfl
  · exact (claim5_dispatch_order ⟨[], [7, 8], [], [], [], [], [], [5]⟩
      ⟨.GAME_PACKET, []⟩).2 0 1 5 7 (by decide) (by decide)

/-! ## Handler exceptions (`SocketRelay.handle_incoming_messages`) -/

/-- A Python exception escaping during dispatch: `flat.InvalidFlatbuffer`
from unpacking a body, or any other `Exception` (e.g. one raised by an
observer callback). -/
inductive PyExc where
  | invalidFlatbuffer
  | generic
deriving DecidableEq, Repr

/-- One entry of the relay's error log; `handle_incoming_messages` logs
the kind (`incoming_message.type.name`) of the message whose dispatch
raised. -/
structure ErrorLogEntry where
  kind : SocketDataType
  exc : PyExc
deriving DecidableEq, Repr

/-- A handler loop where each callback may raise: `behavior h` tells
whether handler `h` returns normally (`none`) or raises. The first raise
aborts the loop and propagates. -/
def run_handler_list_exc (behavior : Nat → Option PyExc) :
    List Nat → Except PyExc Unit
  | [] => .ok ()
  | h :: rest =>
    match behavior h with
    | some e => .error e
    | none => run_handler_list_exc behavior rest

/-- `handle_incoming_message` with raising callbacks: raw handlers run
first, then (for non-`NONE` kinds) the kind-specific list; an exception
propagates to the caller. -/
def handle_incoming_message_exc (r : Handlers) (behavior : Nat → Option PyExc)
    (m : SocketMessage) : Except PyExc MsgHandlingResult :=
  match run_handler_list_exc behavior r.raw_handlers with
  | .error e => .error e
  | .ok _ =>
    match m.type with
    | .NONE => .ok .TERMINATED
    | t =>
      match run_handler_list_exc behavior (handlers_for_kind r t) with
      | .error e => .error e
      | .ok _ => .ok .MORE_MSGS_QUEUED

/-- The dispatch part of `SocketRelay.handle_incoming_messages` (the
message has already been read from the socket): the call to
`handle_incoming_message` sits in a `try` whose `except` arms
(`flat.InvalidFlatbuffer` and the blanket `Exception`) both log an error
naming the message type and return `TERMINATED`. -/
def handle_incoming_messages_dispatch (r : Handlers)
    (behavior : Nat → Option PyExc) (m : SocketMessage) :
    MsgHandlingResult × List ErrorLogEntry :=
  match handle_incoming_message_exc r behavior m with
  | .ok res => (res, [])
  | .error e => (.TERMINATED, [⟨m.type, e⟩])

/-- **C3, counterexample.** The claim says a raised observer exception
leaves the read-dispatch loop running (the result is not `TERMINATED`).
At the concrete input below — one packet handler that raises, a
`GamePacket` message — the relay catches and logs the exception but
returns `TERMINATED`, so the loop stops. -/
theorem claim3_counterexample :
    (handle_incoming_messages_dispatch ⟨[], [3], [], [], [], [], [], []⟩
      (fun h => if h = 3 then some .generic else none)
      ⟨.GAME_PACKET, []⟩).1 = .TERMINATED := by
  decide

/-- **C3, amended.** If any observer callback raises while a decoded
message is dispatched, the relay catches the exception (it does not
propagate), logs it together with the message kind, and
`handle_incoming_messages` returns `TERMINATED`, ending the
read-dispatch loop. -/
theorem claim3_handler_exception (r : Handlers) (behavior : Nat → Option PyExc)
    (m : SocketMessage) (e : PyExc)
    (hraise : handle_incoming_message_exc r behavior m = .error e) :
    handle_incoming_messages_dispatch r behavior m =
      (.TERMINATED, [⟨m.type, e⟩]) := by
  simp [handle_incoming_messages_dispatch, hraise]

/-- Witness for C3 (amended) at the counterexample input. -/
theorem claim3_handler_exception_witness :
    handle_incoming_messages_dispatch ⟨[], [3], [], [], [], [], [], []⟩
      (fun h => if h = 3 then some .generic else none) ⟨.GAME_PACKET, []⟩ =
      (.TERMINATED, [⟨.GAME_PACKET, .generic⟩]) :=
  claim3_handler_exception ⟨[], [3], [], [], [], [], [], []⟩
    (fun h => if h = 3 then some .generic else none) ⟨.GAME_PACKET, []⟩
    .generic (by rfl)

/-! ## Class-attribute observer lists (C9) -/

/-- The eight handler-list attribute names of `SocketRelay`. -/
inductive HandlerField where
  | onConnect
  | packet
  | fieldInfo
  | matchConfig
  | matchComm
  | ballPrediction
  | controllableTeamInfo
  | raw
deriving DecidableEq, Repr

/-- Python attribute state for `SocketRelay` objects. The eight handler
lists are initialised once in the class body of `SocketRelay`
(`interface.py` lines 71-80), so they live in `class_lists`; an
instance's `__dict__` may shadow an attribute (`instances` holds one
overlay per instance, `none` meaning "not in the instance dict").
`__init__` assigns only `agent_id`, `connection_timeout`, `logger` and
`socket` — never the handler lists — so those stay un-shadowed; the
non-list attributes are not modelled. -/
structure PyWorld where
  class_lists : HandlerField → List Nat
  instances : List (HandlerField → Option (List Nat))

/-- `SocketRelay.__init__`: creates a fresh instance whose `__dict__`
contains none of the handler-list attributes; returns the updated world
and the new instance's id. -/
def socket_relay_init (w : PyWorld) : PyWorld × Nat :=
  (⟨w.class_lists, w.instances ++ [fun _ => none]⟩, w.instances.length)

/-- Python attribute lookup in the instance `__dict__` of instance `i`:
`some l` when the attribute is shadowed there, `none` otherwise (an
unknown id has an empty `__dict__`). -/
def instance_overlay (w : PyWorld) (i : Nat) (f : HandlerField) :
    Option (List Nat) :=
  ((w.instances[i]?).getD (fun _ => none)) f

/-- Python attribute lookup `instance.field`: the instance `__dict__`
first, then the class attribute. -/
def get_handler_list (w : PyWorld) (i : Nat) (f : HandlerField) : List Nat :=
  match instance_overlay w i f with
  | some l => l
  | none => w.class_lists f

/-- `instance.field.append(h)`: looks the list object up through the
instance (falling back to the class attribute) and mutates that object
in place. With no instance-dict entry, the class-level list is mutated. -/
def append_handler (w : PyWorld) (i : Nat) (f : HandlerField) (h : Nat) :
    PyWorld :=
  match instance_overlay w i f with
  | some l =>
    { w with
      instances := w.instances.set i
          (fun g => if g = f then some (l ++ [h]) else instance_overlay w i g) }
  | none =>
    { w with
      class_lists := fun g =>
          if g = f then w.class_lists f ++ [h] else w.class_lists g }

/-- The `Handlers` record a dispatch through instance `i` observes. -/
def effective_relay (w : PyWorld) (i : Nat) : Handlers where
  on_connect_handlers := get_handler_list w i .onConnect
  packet_handlers := get_handler_list w i .packet
  field_info_handlers := get_handler_list w i .fieldInfo
  match_config_handlers := get_handler_list w i .matchConfig
  match_comm_handlers := get_handler_list w i .matchComm
  ball_prediction_handlers := get_handler_list w i .ballPrediction
  controllable_team_info_handlers := get_handler_list w i .controllableTeamInfo
  raw_handlers := get_handler_list w i .raw

lemma instance_overlay_eq_none (cl : HandlerField → List Nat)
    (L : List (HandlerField → Option (List Nat))) (i : Nat)
    (hi : L[i]? = some (fun _ => none)) (g : HandlerField) :
    instance_overlay ⟨cl, L⟩ i g = none := by
  simp [instance_overlay, hi]

lemma pair_concat_getElem_fst {α : Type} (l : List α) (a b : α) :
    (l ++ [a, b])[l.length]? = some a := by
  rw [List.getElem?_append_right (Nat.le_refl _)]
  simp

lemma pair_concat_getElem_snd {α : Type} (l : List α) (a b : α) :
    (l ++ [a, b])[l.length + 1]? = some b := by
  rw [List.getElem?_append_right (Nat.le_succ_of_le (Nat.le_refl _))]
  simp

/-- **C9.** The handler lists are class attributes shared by every
`SocketRelay` instance: construct two instances `i1`, `i2` in any world,
register a callback `h` through `i1`, and `i2` observes it — the
attribute resolves, through either instance, to the class list extended
with `h`, and (for the packet list) dispatching a `GamePacket` through
`i2` invokes `h`. -/
theorem claim9_shared_class_lists (w : PyWorld) (f : HandlerField) (h : Nat)
    (d : List Nat) :
    get_handler_list
        (append_handler (socket_relay_init (socket_relay_init w).1).1
          (socket_relay_init w).2 f h)
        (socket_relay_init (socket_relay_init w).1).2 f =
      w.class_lists f ++ [h] ∧
    get_handler_list
        (append_handler (socket_relay_init (socket_relay_init w).1).1
          (socket_relay_init w).2 f h)
        (socket_relay_init w).2 f =
      get_handler_list
        (append_handler (socket_relay_init (socket_relay_init w).1).1
          (socket_relay_init w).2 f h)
        (socket_relay_init (socket_relay_init w).1).2 f ∧
    (f = .packet → HandlerCall.typed h ∈
      (handle_incoming_message
        (effective_relay
          (append_handler (socket_relay_init (socket_relay_init w).1).1
            (socket_relay_init w).2 f h)
          (socket_relay_init (socket_relay_init w).1).2)
        ⟨.GAME_PACKET, d⟩).2) := by
  simp only [socket_relay_init, List.append_assoc, List.singleton_append,
    List.length_append, List.length_cons, List.length_nil, Nat.add_zero]
  have h1 : ∀ g, instance_overlay
      ⟨w.class_lists, w.instances ++ [fun _ => none, fun _ => none]⟩
      w.instances.length g = none :=
    instance_overlay_eq_none _ _ _ (pair_concat_getElem_fst _ _ _)
  have happ : append_handler
      ⟨w.class_lists, w.instances ++ [fun _ => none, fun _ => none]⟩
      w.instances.length f h =
      ⟨fun g => if g = f then w.class_lists f ++ [h] else w.class_lists g,
        w.instances ++ [fun _ => none, fun _ => none]⟩ := by
    rw [append_handler.eq_def, h1]
  have h1' : ∀ g, instance_overlay
      ⟨fun g => if g = f then w.class_lists f ++ [h] else w.class_lists g,
        w.instances ++ [fun _ => none, fun _ => none]⟩
      w.instances.length g = none :=
    instance_overlay_eq_none _ _ _ (pair_concat_getElem_fst _ _ _)
  have h2' : ∀ g, instance_overlay
      ⟨fun g => if g = f then w.class_lists f ++ [h] else w.class_lists g,
        w.instances ++ [fun _ => none, fun _ => none]⟩
      (w.instances.length + 1) g = none :=
    instance_overlay_eq_none _ _ _ (pair_concat_getElem_snd _ _ _)
  have hget2 : get_handler_list
      (append_handler
        ⟨w.class_lists, w.instances ++ [fun _ => none, fun _ => none]⟩
        w.instances.length f h)
      (w.instances.length + 1) f = w.class_lists f ++ [h] := by
    rw [happ, get_handler_list.eq_def, h2']
    simp
  have hget1 : get_handler_list
      (append_handler
        ⟨w.class_lists, w.instances ++ [fun _ => none, fun _ => none]⟩
        w.instances.length f h)
      w.instances.length f = w.class_lists f ++ [h] := by
    rw [happ, get_handler_list.eq_def, h1']
    simp
  refine ⟨hget2, by rw [hget1, hget2], ?_⟩
  intro hf
  subst hf
  rw [(claim5_dispatch_order _ _).1]
  refine List.mem_append_right _ (List.mem_map.mpr ⟨h, ?_, rfl⟩)
  simp only [handlers_for_kind, effective_relay]
  rw [hget2]
  simp

/-! ## Port selection (`rlbot/utils/gateway.py`) -/

/-- `IDEAL_RLBOT_PORT = 23233` from `gateway.py`. -/
def IDEAL_RLBOT_PORT : Nat := 23233

/-- Modelled from the spec: `gateway.py` imports `RLBOT_SOCKETS_PORT`
from `rlbot.interface`, but the `interface.py` in this tree only defines
`RLBOT_SERVER_PORT = 23234`; the spec names 23234 as the default
listening port, so the missing constant is taken to be that port. -/
def RLBOT_SOCKETS_PORT : Nat := RLBOT_SERVER_PORT

/-- The `for port_to_test in ...` loop of `find_usable_port_for_game`:
skip `RLBOT_SOCKETS_PORT`, return the first port for which
`is_port_accessible` (a loopback `bind` succeeding, abstracted into the
oracle `accessible`) is true; `none` models the `PermissionError`
raised when the loop is exhausted. -/
def scan_ports (accessible : Nat → Bool) : List Nat → Option Nat
  | [] => none
  | p :: rest =>
    if p = RLBOT_SOCKETS_PORT then scan_ports accessible rest
    else if accessible p then some p
    else scan_ports accessible rest

/-- `find_usable_port_for_game` from `gateway.py`: if a running
`RocketLeague` process advertises an `RLBot_ControllerURL` port
(abstracted into `rocket_league_port`), return it; otherwise scan
`range(IDEAL_RLBOT_PORT, 65535)`, i.e. ports 23233 through 65534. -/
def find_usable_port_for_game (rocket_league_port : Option Nat)
    (accessible : Nat → Bool) : Option Nat :=
  match rocket_league_port with
  | some p => some p
  | none =>
    scan_ports accessible
      (List.range' IDEAL_RLBOT_PORT (65535 - IDEAL_RLBOT_PORT))

lemma find_usable_port_none (accessible : Nat → Bool) :
    find_usable_port_for_game none accessible =
      scan_ports accessible
        (List.range' IDEAL_RLBOT_PORT (65535 - IDEAL_RLBOT_PORT)) := by
  rw [find_usable_port_for_game.eq_def]

lemma scan_ports_range'_none (accessible : Nat → Bool) :
    ∀ (n s : Nat), scan_ports accessible (List.range' s n) = none ↔
      ∀ q, s ≤ q → q < s + n → q ≠ RLBOT_SOCKETS_PORT → accessible q = false := by
  intro n
  induction n with
  | zero =>
    intro s
    simp only [List.range', scan_ports]
    constructor
    · intro _ q h1 h2 h3
      exact absurd h2 (by omega)
    · intro _
      trivial
  | succ m ih =>
    intro s
    simp only [List.range', scan_ports]
    by_cases hs : s = RLBOT_SOCKETS_PORT
    · rw [if_pos hs, ih]
      constructor
      · intro hall q h1 h2 h3
        by_cases hq : q = s
        · exact absurd (hq.trans hs) h3
        · exact hall q (by omega) (by omega) h3
      · intro hall q h1 h2 h3
        exact hall q (by omega) (by omega) h3
    · rw [if_neg hs]
      by_cases ha : accessible s = true
      · rw [if_pos ha]
        constructor
        · intro hcontra
          exact absurd hcontra (by simp)
        · intro hall
          have hfalse := hall s (Nat.le_refl s) (by omega) hs
          rw [hfalse] at ha
          exact absurd ha (by simp)
      · rw [if_neg ha, ih]
        constructor
        · intro hall q h1 h2 h3
          by_cases hq : q = s
          · subst hq
            simpa using ha
          · exact hall q (by omega) (by omega) h3
        · intro hall q h1 h2 h3
          exact hall q (by omega) (by omega) h3

lemma scan_ports_range'_some (accessible : Nat → Bool) :
    ∀ (n s p : Nat), scan_ports accessible (List.range' s n) = some p →
      s ≤ p ∧ p < s + n ∧ p ≠ RLBOT_SOCKETS_PORT ∧ accessible p = true ∧
        ∀ q, s ≤ q → q < p → q ≠ RLBOT_SOCKETS_PORT → accessible q = false := by
  intro n
  induction n with
  | zero =>
    intro s p h
    simp [List.range', scan_ports] at h
  | succ m ih =>
    intro s p h
    simp only [List.range', scan_ports] at h
    by_cases hs : s = RLBOT_SOCKETS_PORT
    · rw [if_pos hs] at h
      obtain ⟨h1, h2, h3, h4, h5⟩ := ih (s + 1) p h
      refine ⟨by omega, by omega, h3, h4, ?_⟩
      intro q hq1 hq2 hq3
      by_cases hq : q = s
      · exact absurd (hq.trans hs) hq3
      · exact h5 q (by omega) hq2 hq3
    · rw [if_neg hs] at h
      by_cases ha : accessible s = true
      · rw [if_pos ha] at h
        obtain rfl : s = p := Option.some.inj h
        exact ⟨Nat.le_refl _, by omega, hs, ha,
          fun q hq1 hq2 _ => absurd hq2 (by omega)⟩
      · rw [if_neg ha] at h
        obtain ⟨h1, h2, h3, h4, h5⟩ := ih (s + 1) p h
        refine ⟨by omega, by omega, h3, h4, ?_⟩
        intro q hq1 hq2 hq3
        by_cases hq : q = s
        · subst hq
          simpa using ha
        · exact h5 q (by omega) hq2 hq3

/-- **C7, counterexample.** The claim says that when 23234 is bound by
another process the scan selects the lowest free port strictly greater
than 23234. With every port except 23234 bindable, the code returns
23233 — which is *not* greater than 23234 (the scan starts at
`IDEAL_RLBOT_PORT = 23233`, below the claimed default). -/
theorem claim7_counterexample :
    find_usable_port_for_game none (fun p => decide (p ≠ 23234)) = some 23233 ∧
      ¬ 23234 < 23233 := by
  constructor
  · rfl
  · decide

/-- **C7, amended.** With no running `RocketLeague` process advertising a
port, `find_usable_port_for_game` returns the lowest loopback-bindable
port in `[23233, 65534]` other than `RLBOT_SOCKETS_PORT` (23234), and
raises (`none`) exactly when no port in that range, `RLBOT_SOCKETS_PORT`
excepted, is bindable. -/
theorem claim7_port_scan (accessible : Nat → Bool) (p : Nat) :
    (find_usable_port_for_game none accessible = some p →
      IDEAL_RLBOT_PORT ≤ p ∧ p < 65535 ∧ p ≠ RLBOT_SOCKETS_PORT ∧
        accessible p = true ∧
        ∀ q, IDEAL_RLBOT_PORT ≤ q → q < p → q ≠ RLBOT_SOCKETS_PORT →
          accessible q = false) ∧
    (find_usable_port_for_game none accessible = none ↔
      ∀ q, IDEAL_RLBOT_PORT ≤ q → q < 65535 → q ≠ RLBOT_SOCKETS_PORT →
        accessible q = false) := by
  have hsum : IDEAL_RLBOT_PORT + (65535 - IDEAL_RLBOT_PORT) = 65535 := by decide
  constructor
  · intro h
    rw [find_usable_port_none] at h
    have hc := scan_ports_range'_some accessible (65535 - IDEAL_RLBOT_PORT)
      IDEAL_RLBOT_PORT p h
    refine ⟨hc.1, ?_, hc.2.2.1, hc.2.2.2.1, hc.2.2.2.2⟩
    have h2 := hc.2.1
    omega
  · rw [find_usable_port_none, scan_ports_range'_none, hsum]

/-- Witness for C7 (amended): with only 23235 bindable the scan returns
23235; with no port bindable it raises. -/
theorem claim7_port_scan_witness :
    (IDEAL_RLBOT_PORT ≤ 23235 ∧ 23235 < 65535 ∧
      (23235 : Nat) ≠ RLBOT_SOCKETS_PORT ∧
      (fun p => decide (p = 23235)) 23235 = true ∧
      ∀ q, IDEAL_RLBOT_PORT ≤ q → q < 23235 → q ≠ RLBOT_SOCKETS_PORT →
        (fun p => decide (p = 23235)) q = false) ∧
    find_usable_port_for_game none (fun _ => false) = none := by
  constructor
  · exact (claim7_port_scan (fun p => decide (p = 23235)) 23235).1 (by rfl)
  · exact (claim7_port_scan (fun _ => false) 0).2.mpr (fun q _ _ _ => rfl)

/-! ## Shutdown escalation (`MatchManager.shut_down`) -/

/-- The force actions of one iteration of the `shut_down` polling loop. -/
inductive ShutdownAction where
  | noAction
  | terminateProc
  | warnTerminate
  | kill
deriving DecidableEq, Repr

/-- The `if use_force_if_necessary:` chain inside `MatchManager.shut_down`
(`match.py` lines 320-334), as a function of the `sleeps` counter. The
loop increments `sleeps`, sleeps one second, re-polls
`find_server_process`, and runs this chain only while the server process
is still found. -/
def shut_down_escalation (use_force_if_necessary : Bool) (sleeps : Nat) :
    ShutdownAction :=
  if !use_force_if_necessary then .noAction
  else if sleeps = 1 then .terminateProc
  else if sleeps = 4 ∨ sleeps = 7 then .warnTerminate
  else if 10 ≤ sleeps ∧ sleeps % 3 = 1 then .kill
  else .noAction

/-- The actions issued over the first `k` polling iterations of a server
that survives them all (iterations are numbered from 1). -/
def shut_down_trace (use_force_if_necessary : Bool) (k : Nat) :
    List ShutdownAction :=
  (List.range k).map (fun i => shut_down_escalation use_force_if_necessary (i + 1))

/-- **C8.** Shutdown escalation with force enabled: while the server
survives, iteration 1 issues `terminate`, iterations 4 and 7 issue a
warning plus `terminate`, iteration 10 and every third iteration after it
(13, 16, ...) issue `kill`, and no other iteration issues anything. -/
theorem claim8_shutdown_escalation (n : Nat) (hn : 1 ≤ n) :
    (shut_down_escalation true n = .terminateProc ↔ n = 1) ∧
    (shut_down_escalation true n = .warnTerminate ↔ n = 4 ∨ n = 7) ∧
    (shut_down_escalation true n = .kill ↔
      10 ≤ n ∧ (n - 10) % 3 = 0) ∧
    (shut_down_escalation true n = .noAction ↔
      ¬(n = 1 ∨ n = 4 ∨ n = 7 ∨ (10 ≤ n ∧ (n - 10) % 3 = 0))) := by
  have hmod : (10 ≤ n ∧ n % 3 = 1) ↔ (10 ≤ n ∧ (n - 10) % 3 = 0) := by omega
  unfold shut_down_escalation
  by_cases h1 : n = 1
  · subst h1
    simp
  · rw [if_neg (by simp), if_neg h1]
    by_cases h47 : n = 4 ∨ n = 7
    · rw [if_pos h47]
      refine ⟨by simp [h1], by simp [h47], ?_, ?_⟩
      · constructor
        · intro h
          exact absurd h (by simp)
        · intro h
          rcases h47 with h4 | h7 <;> omega
      · constructor
        · intro h
          exact absurd h (by simp)
        · intro h
          exact absurd (Or.inr (Or.inl (by tauto))) (by tauto)
    · rw [if_neg h47]
      by_cases hk : 10 ≤ n ∧ n % 3 = 1
      · rw [if_pos hk]
        refine ⟨by simp [h1], by simp [h47], by simp [hmod.mp hk], ?_⟩
        constructor
        · intro h
          exact absurd h (by simp)
        · intro h
          exact absurd (Or.inr (Or.inr (Or.inr (hmod.mp hk)))) h
      · rw [if_neg hk]
        refine ⟨by simp [h1], by simp [h47], by simp [hmod.not.mp hk], ?_⟩
        simp only [true_iff]
        push_neg
        refine ⟨h1, by tauto, by tauto, ?_⟩
        intro h10
        have : ¬ n % 3 = 1 := fun hm => hk ⟨h10, hm⟩
        omega

/-- Witness for C8 at concrete iterations: 1 terminates, 4 warns and
terminates, 10 and 13 kill, 2 does nothing. -/
theorem claim8_shutdown_escalation_witness :
    shut_down_escalation true 1 = .terminateProc ∧
    shut_down_escalation true 4 = .warnTerminate ∧
    shut_down_escalation true 10 = .kill ∧
    shut_down_escalation true 13 = .kill ∧
    shut_down_escalation true 2 = .noAction :=
  ⟨(claim8_shutdown_escalation 1 (by decide)).1.mpr rfl,
    (claim8_shutdown_escalation 4 (by decide)).2.1.mpr (Or.inl rfl),
    (claim8_shutdown_escalation 10 (by decide)).2.2.1.mpr (by decide),
    (claim8_shutdown_escalation 13 (by decide)).2.2.1.mpr (by decide),
    (claim8_shutdown_escalation 2 (by decide)).2.2.2.mpr (by decide)⟩

/-! ## Agent lifecycle machines (`rlbot/managers/{bot,script,hivemind}.py`)

Each manager registers one handler per message kind on its relay and
drives `_run`, the packet-coalescing loop. The embedding replays a finite
arrival sequence of server messages through the handlers; user callbacks
(`initialize`, `get_output`, `get_outputs`, `handle_packet`) and the
`InitComplete` send are recorded as trace events. User callbacks other
than `initialize` are assumed to return normally (their `try/except`
wrappers are not exercised by the claims below). -/

/-- The slice of `flat.GamePacket` the managers inspect: the player list
(entries are opaque). -/
structure GamePacket where
  players : List Nat
deriving DecidableEq, Repr

/-- The slice of `flat.PlayerConfiguration` used: `spawn_id` and `name`. -/
structure PlayerConfiguration where
  spawn_id : Nat
  name : String
deriving DecidableEq, Repr

/-- The slice of `flat.ScriptConfiguration` used: `agent_id` and `name`. -/
structure ScriptConfiguration where
  agent_id : String
  name : String
deriving DecidableEq, Repr

/-- The slice of `flat.MatchConfiguration` used by the managers. -/
structure MatchConfiguration where
  player_configurations : List PlayerConfiguration
  script_configurations : List ScriptConfiguration
deriving DecidableEq, Repr

/-- One `(spawn_id, index)` controllable from `flat.ControllableTeamInfo`. -/
structure ControllableInfo where
  spawn_id : Nat
  index : Nat
deriving DecidableEq, Repr

/-- A server-to-agent message as seen by the manager handlers. The
`controllableTeamInfo` payload carries its first controllable explicitly:
`Bot._handle_controllable_team_info` reads `controllables[0]`, and the
server sends at least one controllable, so the empty-list `IndexError` is
outside the model. `shutdown` is a `NONE`-kind frame; `other` stands for
kinds the managers register no handler for. A `gap` is not a message but
a moment at which the socket has no queued bytes: a non-blocking read
raises `BlockingIOError` and `handle_incoming_messages` returns
`NO_INCOMING_MSGS` (a blocking read simply waits for the next delivery),
which is what lets the loop process a buffered packet mid-stream. -/
inductive ServerMsg where
  | matchConfig (cfg : MatchConfiguration)
  | fieldInfo (info : Nat)
  | controllableTeamInfo (team : Nat) (first : ControllableInfo)
      (rest : List ControllableInfo)
  | gamePacket (p : GamePacket)
  | ballPrediction (bp : Nat)
  | matchComm (mc : Nat)
  | shutdown
  | other
  | gap
deriving DecidableEq, Repr

/-- Trace events: user callbacks entered and frames sent upstream. -/
inductive AgentEvent where
  | initializeCalled
  | initCompleteSent
  | packetProcessorCalled (p : GamePacket)
  | getOutputCalled (p : GamePacket)
  | playerInputSent (index : Int)
  | handlePacketCalled (p : GamePacket)
  | warningLogged
deriving DecidableEq, Repr

/-- The mutable state of a `Bot` (`bot.py`): class-attribute defaults
`team = -1`, `index = -1`, `name = ""`, `spawn_id = 0`, the readiness
latch bits, the pending-packet slot and the latest ball prediction,
plus the recorded event trace. -/
structure BotState where
  team : Int := -1
  index : Int := -1
  name : String := ""
  spawn_id : Nat := 0
  match_config : MatchConfiguration := ⟨[], []⟩
  field_info : Nat := 0
  ball_prediction : Nat := 0
  initialized_bot : Bool := false
  has_match_settings : Bool := false
  has_field_info : Bool := false
  has_player_mapping : Bool := false
  latest_packet : Option GamePacket := none
  latest_prediction : Nat := 0
  events : List AgentEvent := []
deriving DecidableEq, Repr

/-- The state of a freshly constructed `Bot`. -/
def bot_initial : BotState := {}

/-- `Bot._try_initialize`: a no-op unless all three latch bits are set
and the bot is not yet initialized; otherwise resolve the bot's name from
the match config by `spawn_id`, call the user's `initialize` (assumed to
return), set `_initialized_bot`, and send `InitComplete`. -/
def bot_try_initialize (s : BotState) : BotState :=
  if s.initialized_bot || !s.has_match_settings || !s.has_field_info
      || !s.has_player_mapping then s
  else
    let s1 :=
      match s.match_config.player_configurations.find?
          (fun pl => pl.spawn_id == s.spawn_id) with
      | some pl => { s with name := pl.name }
      | none => s
    let s2 := { s1 with events := s1.events ++ [AgentEvent.initializeCalled] }
    let s3 := { s2 with initialized_bot := true }
    { s3 with events := s3.events ++ [AgentEvent.initCompleteSent] }

/-- `Bot._handle_match_config`. -/
def bot_handle_match_config (s : BotState) (cfg : MatchConfiguration) : BotState :=
  bot_try_initialize { s with match_config := cfg, has_match_settings := true }

/-- `Bot._handle_field_info`. -/
def bot_handle_field_info (s : BotState) (info : Nat) : BotState :=
  bot_try_initialize { s with field_info := info, has_field_info := true }

/-- `Bot._handle_controllable_team_info`: reads `controllables[0]`. -/
def bot_handle_controllable_team_info (s : BotState) (team : Nat)
    (first : ControllableInfo) : BotState :=
  bot_try_initialize { s with
    team := (team : Int), spawn_id := first.spawn_id,
    index := (first.index : Int), has_player_mapping := true }

/-- `Bot._handle_ball_prediction`. -/
def bot_handle_ball_prediction (s : BotState) (bp : Nat) : BotState :=
  { s with latest_prediction := bp }

/-- `Bot._handle_packet`: only stores the packet into the pending slot,
discarding any previous unprocessed packet. -/
def bot_handle_packet (s : BotState) (p : GamePacket) : BotState :=
  { s with latest_packet := some p }

/-- One relay dispatch through the handlers the `Bot` constructor
registers. `matchComm` invokes only the user's `handle_match_comm`
(no state change); a `shutdown` frame reaches no bot handler (the bot
registers no raw handler) and makes the loop exit. -/
def bot_dispatch (s : BotState) : ServerMsg → BotState
  | .matchConfig cfg => bot_handle_match_config s cfg
  | .fieldInfo info => bot_handle_field_info s info
  | .controllableTeamInfo team first _ =>
      bot_handle_controllable_team_info s team first
  | .gamePacket p => bot_handle_packet s p
  | .ballPrediction bp => bot_handle_ball_prediction s bp
  | .matchComm _ => s
  | .shutdown => s
  | .other => s
  | .gap => s

/-- `Bot._packet_processor`: drop the packet when
`len(packet.players) <= self.index` (the comparison is over Python ints;
`index` starts at `-1`); otherwise snapshot the ball prediction, call the
user's `get_output` and send one `PlayerInput` for `self.index`. The
entry event records the call made by `_run`. -/
def bot_packet_processor (s : BotState) (p : GamePacket) : BotState :=
  let s0 := { s with events := s.events ++ [AgentEvent.packetProcessorCalled p] }
  if (p.players.length : Int) ≤ s0.index then s0
  else
    let s1 := { s0 with ball_prediction := s0.latest_prediction }
    let s2 := { s1 with events := s1.events ++ [AgentEvent.getOutputCalled p] }
    { s2 with events := s2.events ++ [AgentEvent.playerInputSent s2.index] }

/-- `Bot._run` over a finite arrival queue: while messages are queued,
`handle_incoming_messages` delivers and dispatches the next one
(`TERMINATED` on a `shutdown` frame ends the loop); when the queue is
empty a non-blocking read returns `NO_INCOMING_MSGS`, so a pending packet
is processed and the slot cleared, after which the loop would block on
the empty queue — the model stops there. -/
def bot_run_aux : List ServerMsg → BotState → BotState
  | [], s =>
    match s.latest_packet with
    | some p => { bot_packet_processor s p with latest_packet := none }
    | none => s
  | .shutdown :: _, s => s
  | .gap :: rest, s =>
    match s.latest_packet with
    | some p => bot_run_aux rest { bot_packet_processor s p with latest_packet := none }
    | none => bot_run_aux rest s
  | m :: rest, s => bot_run_aux rest (bot_dispatch s m)

/-- A `Bot` run from construction over an arrival sequence. -/
def bot_run (msgs : List ServerMsg) : BotState :=
  bot_run_aux msgs bot_initial

/-! Trace projections and arrival-sequence predicates. -/

/-- The packets passed to `_packet_processor`, in order. -/
def proc_calls (evs : List AgentEvent) : List GamePacket :=
  evs.filterMap (fun e => match e with
    | AgentEvent.packetProcessorCalled p => some p
    | _ => none)

/-- The pending-packet slot after a message sequence is dispatched on top
of `latest`: each `gamePacket` overwrites it. -/
def pending_after (latest : Option GamePacket) (msgs : List ServerMsg) :
    Option GamePacket :=
  msgs.foldl (fun acc m => match m with
    | .gamePacket p => some p
    | _ => acc) latest

/-- The packets of an arrival sequence, in order. -/
def packets_of (msgs : List ServerMsg) : List GamePacket :=
  msgs.filterMap (fun m => match m with
    | ServerMsg.gamePacket p => some p
    | _ => none)

/-- No `NONE`-kind (shutdown) frame in the sequence. -/
def no_shutdown (msgs : List ServerMsg) : Prop := .shutdown ∉ msgs

instance : DecidablePred no_shutdown := fun msgs =>
  inferInstanceAs (Decidable (ServerMsg.shutdown ∉ msgs))

/-- No moment at which the socket runs empty: the deliveries arrive "with
no gap", so the queue first drains after the last of them. -/
def no_gap (msgs : List ServerMsg) : Prop := .gap ∉ msgs

instance : DecidablePred no_gap := fun msgs =>
  inferInstanceAs (Decidable (ServerMsg.gap ∉ msgs))

/-- The mutable state of a `Script` (`script.py`): class-attribute
defaults `index = 0`, `name = "UnknownScript"`, a two-bit readiness latch
(scripts need no controllable-team info), the pending-packet slot, the
latest ball prediction and the event trace. -/
structure ScriptState where
  index : Nat := 0
  name : String := "UnknownScript"
  match_config : MatchConfiguration := ⟨[], []⟩
  field_info : Nat := 0
  ball_prediction : Nat := 0
  initialized_script : Bool := false
  has_match_settings : Bool := false
  has_field_info : Bool := false
  latest_packet : Option GamePacket := none
  latest_prediction : Nat := 0
  events : List AgentEvent := []
deriving DecidableEq, Repr

/-- The state of a freshly constructed `Script`. -/
def script_initial : ScriptState := {}

/-- `Script._try_initialize`: no-op unless both latch bits are set and
the script is not yet initialized; otherwise call the user's
`initialize` (assumed to return), set `_initialized_script` and send
`InitComplete`. -/
def script_try_initialize (s : ScriptState) : ScriptState :=
  if s.initialized_script || !s.has_match_settings || !s.has_field_info then s
  else
    let s1 := { s with events := s.events ++ [AgentEvent.initializeCalled] }
    let s2 := { s1 with initialized_script := true }
    { s2 with events := s2.events ++ [AgentEvent.initCompleteSent] }

/-- The `for i, script in enumerate(...)` search of
`Script._handle_match_config`: the first script configuration whose
`agent_id` equals the relay's, together with its index. -/
def find_enumerated (p : ScriptConfiguration → Bool) :
    List ScriptConfiguration → Nat → Option (Nat × ScriptConfiguration)
  | [], _ => none
  | sc :: rest, i =>
    if p sc then some (i, sc) else find_enumerated p rest (i + 1)

/-- `Script._handle_match_config`: store the config; if a script entry
with the relay's `agent_id` is found, set `index`, `name` and the
`_has_match_settings` bit; otherwise (the `for`/`else` arm) log a
warning. Either way, fall through to `_try_initialize`. -/
def script_handle_match_config (agent_id : String) (s : ScriptState)
    (cfg : MatchConfiguration) : ScriptState :=
  let s0 := { s with match_config := cfg }
  let s1 :=
    match find_enumerated (fun sc => sc.agent_id == agent_id)
        cfg.script_configurations 0 with
    | some (i, sc) =>
      { s0 with index := i, name := sc.name, has_match_settings := true }
    | none => { s0 with events := s0.events ++ [AgentEvent.warningLogged] }
  script_try_initialize s1

/-- `Script._handle_field_info`. -/
def script_handle_field_info (s : ScriptState) (info : Nat) : ScriptState :=
  script_try_initialize { s with field_info := info, has_field_info := true }

/-- `Script._handle_ball_prediction`. -/
def script_handle_ball_prediction (s : ScriptState) (bp : Nat) : ScriptState :=
  { s with latest_prediction := bp }

/-- `Script._handle_packet`: stores the packet into the pending slot. -/
def script_handle_packet (s : ScriptState) (p : GamePacket) : ScriptState :=
  { s with latest_packet := some p }

/-- One relay dispatch through the handlers the `Script` constructor
registers (scripts register no `controllable_team_info` handler). -/
def script_dispatch (agent_id : String) (s : ScriptState) :
    ServerMsg → ScriptState
  | .matchConfig cfg => script_handle_match_config agent_id s cfg
  | .fieldInfo info => script_handle_field_info s info
  | .controllableTeamInfo _ _ _ => s
  | .gamePacket p => script_handle_packet s p
  | .ballPrediction bp => script_handle_ball_prediction s bp
  | .matchComm _ => s
  | .shutdown => s
  | .other => s
  | .gap => s

/-- `Script._packet_processor`: snapshot the ball prediction and call the
user's `handle_packet` (exceptions are caught and logged; the callback is
assumed to return here). -/
def script_packet_processor (s : ScriptState) (p : GamePacket) : ScriptState :=
  let s0 := { s with events := s.events ++ [AgentEvent.packetProcessorCalled p] }
  let s1 := { s0 with ball_prediction := s0.latest_prediction }
  { s1 with events := s1.events ++ [AgentEvent.handlePacketCalled p] }

/-- `Script._run`: the same coalescing loop as `Bot._run`. -/
def script_run_aux (agent_id : String) :
    List ServerMsg → ScriptState → ScriptState
  | [], s =>
    match s.latest_packet with
    | some p => { script_packet_processor s p with latest_packet := none }
    | none => s
  | .shutdown :: _, s => s
  | .gap :: rest, s =>
    match s.latest_packet with
    | some p =>
      script_run_aux agent_id rest
        { script_packet_processor s p with latest_packet := none }
    | none => script_run_aux agent_id rest s
  | m :: rest, s => script_run_aux agent_id rest (script_dispatch agent_id s m)

/-- A `Script` run from construction over an arrival sequence. -/
def script_run (agent_id : String) (msgs : List ServerMsg) : ScriptState :=
  script_run_aux agent_id msgs script_initial

/-- The mutable state of a `Hivemind` (`hivemind.py`): list-valued
identity fields, the three-bit readiness latch, the pending-packet slot,
the latest ball prediction and the event trace. -/
structure HivemindState where
  team : Int := -1
  indices : List Nat := []
  names : List String := []
  spawn_ids : List Nat := []
  match_config : MatchConfiguration := ⟨[], []⟩
  field_info : Nat := 0
  ball_prediction : Nat := 0
  initialized_bot : Bool := false
  has_match_settings : Bool := false
  has_field_info : Bool := false
  has_player_mapping : Bool := false
  latest_packet : Option GamePacket := none
  latest_prediction : Nat := 0
  events : List AgentEvent := []
deriving DecidableEq, Repr

/-- The state of a freshly constructed `Hivemind`. -/
def hivemind_initial : HivemindState := {}

/-- The `for spawn_id in self.spawn_ids` name-collection loop of
`Hivemind._try_initialize`: for each controlled spawn id, append the name
of the first matching player configuration (if any). -/
def hivemind_collect_names (cfg : MatchConfiguration) (spawn_ids : List Nat)
    (names : List String) : List String :=
  spawn_ids.foldl (fun ns sid =>
    match cfg.player_configurations.find? (fun pl => pl.spawn_id == sid) with
    | some pl => ns ++ [pl.name]
    | none => ns) names

/-- `Hivemind._try_initialize`: no-op unless all three latch bits are set
and not yet initialized; otherwise collect the names of every controlled
spawn id from the match config, call the user's `initialize` (assumed to
return), set `_initialized_bot` and send `InitComplete`. -/
def hivemind_try_initialize (s : HivemindState) : HivemindState :=
  if s.initialized_bot || !s.has_match_settings || !s.has_field_info
      || !s.has_player_mapping then s
  else
    let s1 := { s with
      names := hivemind_collect_names s.match_config s.spawn_ids s.names }
    let s2 := { s1 with events := s1.events ++ [AgentEvent.initializeCalled] }
    let s3 := { s2 with initialized_bot := true }
    { s3 with events := s3.events ++ [AgentEvent.initCompleteSent] }

/-- `Hivemind._handle_match_config`. -/
def hivemind_handle_match_config (s : HivemindState)
    (cfg : MatchConfiguration) : HivemindState :=
  hivemind_try_initialize { s with match_config := cfg, has_match_settings := true }

/-- `Hivemind._handle_field_info`. -/
def hivemind_handle_field_info (s : HivemindState) (info : Nat) : HivemindState :=
  hivemind_try_initialize { s with field_info := info, has_field_info := true }

/-- `Hivemind._handle_controllable_team_info`: appends every
controllable's `spawn_id` and `index`. -/
def hivemind_handle_controllable_team_info (s : HivemindState) (team : Nat)
    (first : ControllableInfo) (rest : List ControllableInfo) : HivemindState :=
  hivemind_try_initialize { s with
    team := (team : Int),
    spawn_ids := s.spawn_ids ++ (first :: rest).map (fun c => c.spawn_id),
    indices := s.indices ++ (first :: rest).map (fun c => c.index),
    has_player_mapping := true }

/-- `Hivemind._handle_ball_prediction`. -/
def hivemind_handle_ball_prediction (s : HivemindState) (bp : Nat) :
    HivemindState :=
  { s with latest_prediction := bp }

/-- `Hivemind._handle_packet`. -/
def hivemind_handle_packet (s : HivemindState) (p : GamePacket) : HivemindState :=
  { s with latest_packet := some p }

/-- One relay dispatch through the handlers the `Hivemind` constructor
registers. -/
def hivemind_dispatch (s : HivemindState) : ServerMsg → HivemindState
  | .matchConfig cfg => hivemind_handle_match_config s cfg
  | .fieldInfo info => hivemind_handle_field_info s info
  | .controllableTeamInfo team first rest =>
      hivemind_handle_controllable_team_info s team first rest
  | .gamePacket p => hivemind_handle_packet s p
  | .ballPrediction bp => hivemind_handle_ball_prediction s bp
  | .matchComm _ => s
  | .shutdown => s
  | .other => s
  | .gap => s

/-- The `for index, controller in controller.items()` loop of
`Hivemind._packet_processor`: one `PlayerInput` frame per returned index,
preceded by a warning when the hivemind does not control that index. -/
def hivemind_send_player_inputs (indices returned : List Nat) :
    List AgentEvent :=
  returned.foldl (fun es i =>
    es ++ (if indices.contains i then [] else [AgentEvent.warningLogged])
      ++ [AgentEvent.playerInputSent (i : Int)]) []

/-- `Hivemind._packet_processor`, parameterized by the indices the user's
`get_outputs` returns for a packet (the controller payloads are opaque).
Evaluating `self.indices[-1]` on an empty `indices` raises `IndexError`
(the `true` flag), which propagates out of `_run`; otherwise the guard
`len(packet.players) <= indices[-1]` may drop the packet, else
`get_outputs` runs and one `PlayerInput` per returned index is sent. -/
def hivemind_packet_processor (gout : GamePacket → List Nat)
    (s : HivemindState) (p : GamePacket) : HivemindState × Bool :=
  let s0 := { s with events := s.events ++ [AgentEvent.packetProcessorCalled p] }
  match s0.indices.getLast? with
  | none => (s0, true)
  | some last =>
    if (p.players.length : Int) ≤ (last : Int) then (s0, false)
    else
      let s1 := { s0 with ball_prediction := s0.latest_prediction }
      let s2 := { s1 with events := s1.events ++ [AgentEvent.getOutputCalled p] }
      ({ s2 with
          events := s2.events ++ hivemind_send_player_inputs s2.indices (gout p) },
        false)

/-- `Hivemind._run`: the same coalescing loop; an `IndexError` escaping
`_packet_processor` aborts the loop before the pending slot is cleared. -/
def hivemind_run_aux (gout : GamePacket → List Nat) :
    List ServerMsg → HivemindState → HivemindState
  | [], s =>
    match s.latest_packet with
    | some p =>
      match hivemind_packet_processor gout s p with
      | (s1, true) => s1
      | (s1, false) => { s1 with latest_packet := none }
    | none => s
  | .shutdown :: _, s => s
  | .gap :: rest, s =>
    match s.latest_packet with
    | some p =>
      match hivemind_packet_processor gout s p with
      | (s1, true) => s1
      | (s1, false) => hivemind_run_aux gout rest { s1 with latest_packet := none }
    | none => hivemind_run_aux gout rest s
  | m :: rest, s => hivemind_run_aux gout rest (hivemind_dispatch s m)

/-- A `Hivemind` run from construction over an arrival sequence. -/
def hivemind_run (gout : GamePacket → List Nat) (msgs : List ServerMsg) :
    HivemindState :=
  hivemind_run_aux gout msgs hivemind_initial

/-! ## C1: packet coalescing -/

lemma proc_calls_append (l t : List AgentEvent) :
    proc_calls (l ++ t) = proc_calls l ++ proc_calls t := by
  simp [proc_calls, List.filterMap_append]

lemma pending_after_append (latest : Option GamePacket) (l1 l2 : List ServerMsg) :
    pending_after latest (l1 ++ l2) = pending_after (pending_after latest l1) l2 := by
  simp [pending_after, List.foldl_append]

lemma pending_after_eq (msgs : List ServerMsg) :
    ∀ latest, pending_after latest msgs = ((packets_of msgs).getLast?).or latest := by
  induction msgs with
  | nil =>
    intro latest
    simp [pending_after, packets_of]
  | cons m rest ih =>
    intro latest
    cases m with
    | gamePacket p =>
      show pending_after (some p) rest = _
      rw [ih]
      show _ = ((p :: packets_of rest).getLast?).or latest
      cases hr : packets_of rest with
      | nil => simp [hr]
      | cons q pr =>
        rw [List.getLast?_cons_cons]
        have : ((q :: pr).getLast?).isSome := by
          rw [List.getLast?_isSome]
          simp
        obtain ⟨x, hx⟩ := Option.isSome_iff_exists.mp this
        rw [hx]
        rfl
    | matchConfig cfg => exact ih latest
    | fieldInfo info => exact ih latest
    | controllableTeamInfo team first rest2 => exact ih latest
    | ballPrediction bp => exact ih latest
    | matchComm mc => exact ih latest
    | shutdown => exact ih latest
    | other => exact ih latest
    | gap => exact ih latest

lemma bot_try_initialize_latest (s : BotState) :
    ( bot_try_initialize s).latest_packet = s.latest_packet := by
  unfold bot_try_initialize
  split
  · rfl
  · cases s.match_config.player_configurations.find?
      (fun pl => pl.spawn_id == s.spawn_id) <;> rfl

lemma bot_try_initialize_proc (s : BotState) :
    proc_calls ( bot_try_initialize s).events = proc_calls s.events := by
  unfold bot_try_initialize
  split
  · rfl
  · cases s.match_config.player_configurations.find?
        (fun pl => pl.spawn_id == s.spawn_id) <;>
      simp [proc_calls, List.filterMap_append]

lemma bot_dispatch_latest (s : BotState) (m : ServerMsg) :
    (bot_dispatch s m).latest_packet = pending_after s.latest_packet [m] := by
  cases m <;>
    simp [bot_dispatch, bot_handle_match_config, bot_handle_field_info,
      bot_handle_controllable_team_info, bot_handle_packet,
      bot_handle_ball_prediction, bot_try_initialize_latest, pending_after]

lemma bot_dispatch_proc (s : BotState) (m : ServerMsg) :
    proc_calls (bot_dispatch s m).events = proc_calls s.events := by
  cases m <;>
    simp [bot_dispatch, bot_handle_match_config, bot_handle_field_info,
      bot_handle_controllable_team_info, bot_handle_packet,
      bot_handle_ball_prediction, bot_try_initialize_proc]

lemma bot_packet_processor_proc (s : BotState) (p : GamePacket) :
    proc_calls (bot_packet_processor s p).events = proc_calls s.events ++ [p] := by
  by_cases h : (p.players.length : Int) ≤ s.index <;>
    simp [bot_packet_processor, h, proc_calls, List.filterMap_append]

lemma bot_run_aux_cons (m : ServerMsg) (rest : List ServerMsg) (s : BotState)
    (hm : m ≠ .shutdown) (hg : m ≠ .gap) :
    bot_run_aux (m :: rest) s = bot_run_aux rest (bot_dispatch s m) := by
  cases m <;> first | rfl | exact absurd rfl hm | exact absurd rfl hg

lemma bot_run_aux_proc (msgs : List ServerMsg) :
    ∀ s : BotState, no_shutdown msgs → no_gap msgs →
      proc_calls (bot_run_aux msgs s).events =
        proc_calls s.events ++ (pending_after s.latest_packet msgs).toList := by
  induction msgs with
  | nil =>
    intro s _ _
    unfold bot_run_aux
    cases hl : s.latest_packet with
    | none => simp [pending_after, hl]
    | some p => simp [pending_after, bot_packet_processor_proc]
  | cons m rest ih =>
    intro s hns hng
    have hm : m ≠ .shutdown := by
      intro h
      exact hns (h ▸ List.mem_cons_self m rest)
    have hg : m ≠ .gap := by
      intro h
      exact hng (h ▸ List.mem_cons_self m rest)
    have hrest : no_shutdown rest := fun h => hns (List.mem_cons_of_mem m h)
    have hgrest : no_gap rest := fun h => hng (List.mem_cons_of_mem m h)
    rw [bot_run_aux_cons m rest s hm hg, ih _ hrest hgrest, bot_dispatch_proc,
      bot_dispatch_latest, show m :: rest = [m] ++ rest from rfl,
      pending_after_append]

lemma script_try_initialize_latest (s : ScriptState) :
    ( script_try_initialize s).latest_packet = s.latest_packet := by
  unfold script_try_initialize
  split <;> rfl

lemma script_try_initialize_proc (s : ScriptState) :
    proc_calls ( script_try_initialize s).events = proc_calls s.events := by
  unfold script_try_initialize
  split
  · rfl
  · simp [proc_calls, List.filterMap_append]

lemma script_handle_match_config_latest (agent_id : String) (s : ScriptState)
    (cfg : MatchConfiguration) :
    (script_handle_match_config agent_id s cfg).latest_packet =
      s.latest_packet := by
  unfold script_handle_match_config
  cases find_enumerated (fun sc => sc.agent_id == agent_id)
      cfg.script_configurations 0 <;>
    simp [script_try_initialize_latest]

lemma script_handle_match_config_proc (agent_id : String) (s : ScriptState)
    (cfg : MatchConfiguration) :
    proc_calls (script_handle_match_config agent_id s cfg).events =
      proc_calls s.events := by
  unfold script_handle_match_config
  cases find_enumerated (fun sc => sc.agent_id == agent_id)
      cfg.script_configurations 0 <;>
    · rw [script_try_initialize_proc]
      try simp [proc_calls, List.filterMap_append]

lemma script_dispatch_latest (agent_id : String) (s : ScriptState) (m : ServerMsg) :
    (script_dispatch agent_id s m).latest_packet =
      pending_after s.latest_packet [m] := by
  cases m <;>
    simp [script_dispatch, script_handle_match_config_latest,
      script_handle_field_info, script_handle_packet,
      script_handle_ball_prediction, script_try_initialize_latest, pending_after]

lemma script_dispatch_proc (agent_id : String) (s : ScriptState) (m : ServerMsg) :
    proc_calls (script_dispatch agent_id s m).events = proc_calls s.events := by
  cases m <;>
    simp [script_dispatch, script_handle_match_config_proc,
      script_handle_field_info, script_handle_packet,
      script_handle_ball_prediction, script_try_initialize_proc]

lemma script_packet_processor_proc (s : ScriptState) (p : GamePacket) :
    proc_calls (script_packet_processor s p).events =
      proc_calls s.events ++ [p] := by
  simp [script_packet_processor, proc_calls, List.filterMap_append]

lemma script_run_aux_cons (agent_id : String) (m : ServerMsg)
    (rest : List ServerMsg) (s : ScriptState) (hm : m ≠ .shutdown)
    (hg : m ≠ .gap) :
    script_run_aux agent_id (m :: rest) s =
      script_run_aux agent_id rest (script_dispatch agent_id s m) := by
  cases m <;> first | rfl | exact absurd rfl hm | exact absurd rfl hg

lemma script_run_aux_proc (agent_id : String) (msgs : List ServerMsg) :
    ∀ s : ScriptState, no_shutdown msgs → no_gap msgs →
      proc_calls (script_run_aux agent_id msgs s).events =
        proc_calls s.events ++ (pending_after s.latest_packet msgs).toList := by
  induction msgs with
  | nil =>
    intro s _ _
    unfold script_run_aux
    cases hl : s.latest_packet with
    | none => simp [pending_after, hl]
    | some p => simp [pending_after, script_packet_processor_proc]
  | cons m rest ih =>
    intro s hns hng
    have hm : m ≠ .shutdown := by
      intro h
      exact hns (h ▸ List.mem_cons_self m rest)
    have hg : m ≠ .gap := by
      intro h
      exact hng (h ▸ List.mem_cons_self m rest)
    have hrest : no_shutdown rest := fun h => hns (List.mem_cons_of_mem m h)
    have hgrest : no_gap rest := fun h => hng (List.mem_cons_of_mem m h)
    rw [script_run_aux_cons agent_id m rest s hm hg, ih _ hrest hgrest,
      script_dispatch_proc, script_dispatch_latest,
      show m :: rest = [m] ++ rest from rfl, pending_after_append]

lemma hivemind_try_initialize_latest (s : HivemindState) :
    ( hivemind_try_initialize s).latest_packet = s.latest_packet := by
  unfold hivemind_try_initialize
  split <;> rfl

lemma hivemind_try_initialize_proc (s : HivemindState) :
    proc_calls ( hivemind_try_initialize s).events = proc_calls s.events := by
  unfold hivemind_try_initialize
  split
  · rfl
  · simp [proc_calls, List.filterMap_append]

lemma hivemind_dispatch_latest (s : HivemindState) (m : ServerMsg) :
    (hivemind_dispatch s m).latest_packet = pending_after s.latest_packet [m] := by
  cases m <;>
    simp [hivemind_dispatch, hivemind_handle_match_config,
      hivemind_handle_field_info, hivemind_handle_controllable_team_info,
      hivemind_handle_packet, hivemind_handle_ball_prediction,
      hivemind_try_initialize_latest, pending_after]

lemma hivemind_dispatch_proc (s : HivemindState) (m : ServerMsg) :
    proc_calls (hivemind_dispatch s m).events = proc_calls s.events := by
  cases m <;>
    simp [hivemind_dispatch, hivemind_handle_match_config,
      hivemind_handle_field_info, hivemind_handle_controllable_team_info,
      hivemind_handle_packet, hivemind_handle_ball_prediction,
      hivemind_try_initialize_proc]

lemma proc_calls_send_player_inputs (indices returned : List Nat) :
    proc_calls (hivemind_send_player_inputs indices returned) = [] := by
  suffices h : ∀ (r : List Nat) (es : List AgentEvent),
      proc_calls (r.foldl (fun es i =>
        es ++ (if indices.contains i then [] else [AgentEvent.warningLogged])
          ++ [AgentEvent.playerInputSent (i : Int)]) es) = proc_calls es by
    simpa [hivemind_send_player_inputs, proc_calls] using h returned []
  intro r
  induction r with
  | nil => intro es; rfl
  | cons i rest ih =>
    intro es
    rw [List.foldl_cons, ih]
    by_cases hc : indices.contains i <;>
      simp [hc, proc_calls, List.filterMap_append]

lemma hivemind_packet_processor_proc (gout : GamePacket → List Nat)
    (s : HivemindState) (p : GamePacket) :
    proc_calls (hivemind_packet_processor gout s p).1.events =
      proc_calls s.events ++ [p] := by
  unfold hivemind_packet_processor
  cases hl : (s.events ++ [AgentEvent.packetProcessorCalled p], s.indices).2.getLast? with
  | none =>
    simp only [hl]
    simp [proc_calls, List.filterMap_append]
  | some last =>
    simp only [hl]
    by_cases hg : (p.players.length : Int) ≤ (last : Int)
    · simp [hg, proc_calls, List.filterMap_append]
    · simp [hg, proc_calls, List.filterMap_append]
      exact List.forall_none_of_filterMap_eq_nil (by
        simpa [proc_calls] using
          proc_calls_send_player_inputs s.indices (gout p))

lemma hivemind_run_aux_cons (gout : GamePacket → List Nat) (m : ServerMsg)
    (rest : List ServerMsg) (s : HivemindState) (hm : m ≠ .shutdown)
    (hg : m ≠ .gap) :
    hivemind_run_aux gout (m :: rest) s =
      hivemind_run_aux gout rest (hivemind_dispatch s m) := by
  cases m <;> first | rfl | exact absurd rfl hm | exact absurd rfl hg

lemma hivemind_run_aux_proc (gout : GamePacket → List Nat)
    (msgs : List ServerMsg) :
    ∀ s : HivemindState, no_shutdown msgs → no_gap msgs →
      proc_calls (hivemind_run_aux gout msgs s).events =
        proc_calls s.events ++ (pending_after s.latest_packet msgs).toList := by
  induction msgs with
  | nil =>
    intro s _ _
    unfold hivemind_run_aux
    cases hl : s.latest_packet with
    | none => simp [pending_after, hl]
    | some p =>
      simp only [hl]
      cases hp : hivemind_packet_processor gout s p with
      | mk s1 raised =>
        have := hivemind_packet_processor_proc gout s p
        rw [hp] at this
        cases raised <;> simp [pending_after, this]
  | cons m rest ih =>
    intro s hns hng
    have hm : m ≠ .shutdown := by
      intro h
      exact hns (h ▸ List.mem_cons_self m rest)
    have hg : m ≠ .gap := by
      intro h
      exact hng (h ▸ List.mem_cons_self m rest)
    have hrest : no_shutdown rest := fun h => hns (List.mem_cons_of_mem m h)
    have hgrest : no_gap rest := fun h => hng (List.mem_cons_of_mem m h)
    rw [hivemind_run_aux_cons gout m rest s hm hg, ih _ hrest hgrest,
      hivemind_dispatch_proc, hivemind_dispatch_latest,
      show m :: rest = [m] ++ rest from rfl, pending_after_append]

/-- **C1.** Packet coalescing, for all three loop flavours
(`Bot._run`, `Script._run`, `Hivemind._run`): the `GamePacket` handler
only stores into the pending slot (`*_handle_packet`), a newer packet
overwrites an older unprocessed one (`pending_after`), and over any
arrival sequence whose deliveries come with no gap and no shutdown frame
and whose packets are `P1..Pn` (`n ≥ 1`), exactly one packet reaches
`_packet_processor` and it is `Pn` (the last of `packets_of`); with no
packets, none is processed. -/
theorem claim1_packet_coalescing :
    (∀ msgs p, no_shutdown msgs → no_gap msgs →
      (packets_of msgs).getLast? = some p →
      proc_calls (bot_run msgs).events = [p]) ∧
    (∀ msgs, no_shutdown msgs → no_gap msgs → packets_of msgs = [] →
      proc_calls (bot_run msgs).events = []) ∧
    (∀ agent_id msgs p, no_shutdown msgs → no_gap msgs →
      (packets_of msgs).getLast? = some p →
      proc_calls (script_run agent_id msgs).events = [p]) ∧
    (∀ gout msgs p, no_shutdown msgs → no_gap msgs →
      (packets_of msgs).getLast? = some p →
      proc_calls (hivemind_run gout msgs).events = [p]) := by
  refine ⟨?_, ?_, ?_, ?_⟩
  · intro msgs p hns hng hlast
    rw [bot_run, bot_run_aux_proc msgs bot_initial hns hng,
      pending_after_eq, hlast]
    rfl
  · intro msgs hns hng hnil
    rw [bot_run, bot_run_aux_proc msgs bot_initial hns hng,
      pending_after_eq, hnil]
    rfl
  · intro agent_id msgs p hns hng hlast
    rw [script_run, script_run_aux_proc agent_id msgs script_initial hns hng,
      pending_after_eq, hlast]
    rfl
  · intro gout msgs p hns hng hlast
    rw [hivemind_run, hivemind_run_aux_proc gout msgs hivemind_initial hns hng,
      pending_after_eq, hlast]
    rfl

/-- Witness for C1: three packets (and an interleaved `MatchComm`) reach
each loop; only the third packet is processed. -/
theorem claim1_packet_coalescing_witness :
    proc_calls (bot_run [.gamePacket ⟨[1]⟩, .gamePacket ⟨[2]⟩, .matchComm 0,
      .gamePacket ⟨[3]⟩]).events = [⟨[3]⟩] ∧
    proc_calls (bot_run [.matchComm 0]).events = [] ∧
    proc_calls (script_run "s" [.gamePacket ⟨[1]⟩, .gamePacket ⟨[2]⟩,
      .gamePacket ⟨[3]⟩]).events = [⟨[3]⟩] ∧
    proc_calls (hivemind_run (fun _ => []) [.gamePacket ⟨[1]⟩,
      .gamePacket ⟨[2]⟩, .gamePacket ⟨[3]⟩]).events = [⟨[3]⟩] :=
  ⟨claim1_packet_coalescing.1 _ _ (by decide) (by decide) (by decide),
    claim1_packet_coalescing.2.1 _ (by decide) (by decide) (by decide),
    claim1_packet_coalescing.2.2.1 "s" _ _ (by decide) (by decide) (by decide),
    claim1_packet_coalescing.2.2.2 (fun _ => []) _ _ (by decide) (by decide)
      (by decide)⟩

/-! ## C10: the short-player-list guard of `Bot._packet_processor` -/

/-- **C10.** When the buffered `GamePacket` is consumed with
`len(packet.players) <= self.index`, the packet is dropped silently: the
`NO_INCOMING_MSGS` arm of `Bot._run` calls `_packet_processor` (the one
trace event added), `get_output` is not invoked, no `PlayerInput` is
sent, and the pending slot is still cleared, so the loop returns to
blocking reads. -/
theorem claim10_short_packet_dropped (s : BotState) (p : GamePacket)
    (hpend : s.latest_packet = some p)
    (hshort : (p.players.length : Int) ≤ s.index) :
    (bot_run_aux [] s).latest_packet = none ∧
    (bot_run_aux [] s).events =
      s.events ++ [AgentEvent.packetProcessorCalled p] := by
  unfold bot_run_aux
  rw [hpend]
  constructor
  · rfl
  · simp [bot_packet_processor, hshort]

/-- A bot state at index 2 with a buffered two-player packet, for the
C10 witness. -/
def short_packet_state : BotState :=
  { bot_initial with index := 2, latest_packet := some ⟨[5, 6]⟩ }

/-- Witness for C10: an initialized bot at index 2 with a buffered
two-player packet drops it and clears the slot. -/
theorem claim10_short_packet_dropped_witness :
    (bot_run_aux [] short_packet_state).latest_packet = none ∧
    (bot_run_aux [] short_packet_state).events =
      short_packet_state.events ++
        [AgentEvent.packetProcessorCalled ⟨[5, 6]⟩] :=
  claim10_short_packet_dropped short_packet_state ⟨[5, 6]⟩ rfl (by decide)

/-! ## C6: a script absent from the match configuration -/

lemma find_enumerated_none (p : ScriptConfiguration → Bool) :
    ∀ (l : List ScriptConfiguration) (i : Nat), (∀ sc ∈ l, p sc = false) →
      find_enumerated p l i = none := by
  intro l
  induction l with
  | nil =>
    intro i _
    rfl
  | cons sc rest ih =>
    intro i hall
    simp only [find_enumerated]
    rw [hall sc (List.mem_cons_self sc rest)]
    simpa using ih (i + 1) (fun sc' h => hall sc' (List.mem_cons_of_mem sc h))

/-- **C6, counterexample.** The claim says that when no script entry
matches the relay's `agent_id`, a warning is logged and initialization
still proceeds once field info arrives. At the concrete input below — a
match configuration with no script entries, followed by field info — the
warning is logged but `_has_match_settings` is never set, so `initialize`
is not called and no `InitComplete` is sent. -/
theorem claim6_counterexample :
    (script_handle_field_info
      (script_handle_match_config "x" script_initial ⟨[], []⟩) 0).events =
        [AgentEvent.warningLogged] ∧
    (script_handle_field_info
      (script_handle_match_config "x" script_initial ⟨[], []⟩)
        0).initialized_script = false := by
  decide

/-- **C6, amended.** When the received `MatchConfiguration` contains no
script entry whose `agent_id` equals the relay's, a warning is logged but
the `_has_match_settings` latch is NOT set, so initialization does not
proceed: even after field info is also received, the user's `initialize`
is not called and no `InitComplete` is sent (until a later match
configuration that does contain the script arrives). -/
theorem claim6_script_missing_no_init (agent_id : String)
    (cfg : MatchConfiguration) (info : Nat)
    (hnone : ∀ sc ∈ cfg.script_configurations,
      (sc.agent_id == agent_id) = false) :
    AgentEvent.warningLogged ∈
      (script_handle_match_config agent_id script_initial cfg).events ∧
    (script_handle_match_config agent_id script_initial
      cfg).has_match_settings = false ∧
    (script_handle_field_info (script_handle_match_config agent_id
      script_initial cfg) info).initialized_script = false ∧
    (script_handle_field_info (script_handle_match_config agent_id
      script_initial cfg) info).events.count
        AgentEvent.initializeCalled = 0 ∧
    (script_handle_field_info (script_handle_match_config agent_id
      script_initial cfg) info).events.count
        AgentEvent.initCompleteSent = 0 := by
  have hfind := find_enumerated_none (fun sc => sc.agent_id == agent_id)
    cfg.script_configurations 0 hnone
  refine ⟨?_, ?_, ?_, ?_, ?_⟩ <;>
    simp [script_handle_match_config, hfind, script_try_initialize,
      script_handle_field_info, script_initial]

/-- Witness for C6 (amended) at a concrete configuration holding one
script with a different agent id. -/
theorem claim6_script_missing_no_init_witness :
    AgentEvent.warningLogged ∈
      (script_handle_match_config "x" script_initial
        ⟨[], [⟨"y", "other"⟩]⟩).events ∧
    (script_handle_match_config "x" script_initial
      ⟨[], [⟨"y", "other"⟩]⟩).has_match_settings = false ∧
    (script_handle_field_info (script_handle_match_config "x"
      script_initial ⟨[], [⟨"y", "other"⟩]⟩) 7).initialized_script = false ∧
    (script_handle_field_info (script_handle_match_config "x"
      script_initial ⟨[], [⟨"y", "other"⟩]⟩) 7).events.count
        AgentEvent.initializeCalled = 0 ∧
    (script_handle_field_info (script_handle_match_config "x"
      script_initial ⟨[], [⟨"y", "other"⟩]⟩) 7).events.count
        AgentEvent.initCompleteSent = 0 :=
  claim6_script_missing_no_init "x" ⟨[], [⟨"y", "other"⟩]⟩ 7 (by decide)

/-! ## C2: the initialization latch -/

/-- Recognizer for `initialize` trace events. -/
def is_init_event : AgentEvent → Bool
  | .initializeCalled => true
  | _ => false

/-- Recognizer for `InitComplete` trace events. -/
def is_ic_event : AgentEvent → Bool
  | .initCompleteSent => true
  | _ => false

/-- Recognizer for `get_output`/`get_outputs` call events. -/
def is_go_event : AgentEvent → Bool
  | .getOutputCalled _ => true
  | _ => false

/-- How many times `initialize` was entered. -/
def count_init (evs : List AgentEvent) : Nat := (evs.filter is_init_event).length

/-- How many `InitComplete` frames were sent. -/
def count_ic (evs : List AgentEvent) : Nat := (evs.filter is_ic_event).length

/-- Whether `get_output`/`get_outputs` has been called. -/
def has_go (evs : List AgentEvent) : Bool := evs.any is_go_event

/-- The `InitComplete` send immediately follows the `initialize` call. -/
def init_adjacent (evs : List AgentEvent) : Prop :=
  ∃ k, evs[k]? = some AgentEvent.initializeCalled ∧
    evs[k + 1]? = some AgentEvent.initCompleteSent

/-- Message-kind recognizers over arrival sequences. -/
def ServerMsg.isMatchConfigB : ServerMsg → Bool
  | .matchConfig _ => true
  | _ => false

def ServerMsg.isFieldInfoB : ServerMsg → Bool
  | .fieldInfo _ => true
  | _ => false

def ServerMsg.isControllableTeamInfoB : ServerMsg → Bool
  | .controllableTeamInfo _ _ _ => true
  | _ => false

def ServerMsg.isPacketB : ServerMsg → Bool
  | .gamePacket _ => true
  | _ => false

lemma count_init_append (l t : List AgentEvent) :
    count_init (l ++ t) = count_init l + count_init t := by
  simp [count_init, List.filter_append]

lemma count_ic_append (l t : List AgentEvent) :
    count_ic (l ++ t) = count_ic l + count_ic t := by
  simp [count_ic, List.filter_append]

lemma init_adjacent_append (l t : List AgentEvent) (h : init_adjacent l) :
    init_adjacent (l ++ t) := by
  obtain ⟨k, h1, h2⟩ := h
  have hlen2 : k + 1 < l.length := (List.getElem?_eq_some_iff.mp h2).1
  have hlen1 : k < l.length := Nat.lt_of_succ_lt hlen2
  exact ⟨k, by rw [List.getElem?_append_left hlen1]; exact h1,
    by rw [List.getElem?_append_left hlen2]; exact h2⟩

lemma init_adjacent_concat (l : List AgentEvent) :
    init_adjacent (l ++ [AgentEvent.initializeCalled,
      AgentEvent.initCompleteSent]) :=
  ⟨l.length, pair_concat_getElem_fst l _ _, pair_concat_getElem_snd l _ _⟩

/-- The per-connection latch invariant of a `Bot`: the initialized bit
tracks the three latch bits, `initialize` has been entered once iff the
bit is set (and then `InitComplete` directly follows it in the trace),
and the `InitComplete` count matches. -/
def BotInv (s : BotState) : Prop :=
  s.initialized_bot =
    (s.has_match_settings && s.has_field_info && s.has_player_mapping) ∧
  count_init s.events = (if s.initialized_bot then 1 else 0) ∧
  count_ic s.events = (if s.initialized_bot then 1 else 0) ∧
  (s.initialized_bot = true → init_adjacent s.events)

lemma BotInv_initial : BotInv bot_initial := by
  refine ⟨rfl, rfl, rfl, ?_⟩
  intro h
  exact absurd h (by decide)

lemma bot_try_initialize_skip (s : BotState)
    (h : (s.initialized_bot || !s.has_match_settings || !s.has_field_info
      || !s.has_player_mapping) = true) :
    bot_try_initialize s = s := by
  unfold bot_try_initialize
  rw [if_pos h]

lemma bot_try_initialize_fire (s : BotState)
    (h : (s.initialized_bot || !s.has_match_settings || !s.has_field_info
      || !s.has_player_mapping) = false) :
    ( bot_try_initialize s).initialized_bot = true ∧
    ( bot_try_initialize s).events = s.events ++
      [AgentEvent.initializeCalled, AgentEvent.initCompleteSent] ∧
    ( bot_try_initialize s).has_match_settings = s.has_match_settings ∧
    ( bot_try_initialize s).has_field_info = s.has_field_info ∧
    ( bot_try_initialize s).has_player_mapping = s.has_player_mapping := by
  unfold bot_try_initialize
  rw [if_neg (by simp [h])]
  cases s.match_config.player_configurations.find?
      (fun pl => pl.spawn_id == s.spawn_id) <;>
    exact ⟨rfl, by simp, rfl, rfl, rfl⟩

lemma bot_try_initialize_flags (s : BotState) :
    ( bot_try_initialize s).has_match_settings = s.has_match_settings ∧
    ( bot_try_initialize s).has_field_info = s.has_field_info ∧
    ( bot_try_initialize s).has_player_mapping = s.has_player_mapping ∧
    ( bot_try_initialize s).latest_packet = s.latest_packet := by
  unfold bot_try_initialize
  split
  · exact ⟨rfl, rfl, rfl, rfl⟩
  · cases s.match_config.player_configurations.find?
        (fun pl => pl.spawn_id == s.spawn_id) <;>
      exact ⟨rfl, rfl, rfl, rfl⟩

lemma bot_try_initialize_init_mono (s : BotState)
    (h : s.initialized_bot = true) :
    ( bot_try_initialize s).initialized_bot = true := by
  rw [bot_try_initialize_skip s (by simp [h])]
  exact h

/-- `_try_initialize` restores the full latch invariant from the weaker
state that holds right after a handler sets one latch bit. -/
lemma BotInv_try_initialize (s : BotState)
    (h1 : s.initialized_bot = true →
      (s.has_match_settings && s.has_field_info && s.has_player_mapping) = true)
    (h2 : count_init s.events = (if s.initialized_bot then 1 else 0))
    (h3 : count_ic s.events = (if s.initialized_bot then 1 else 0))
    (h4 : s.initialized_bot = true → init_adjacent s.events) :
    BotInv ( bot_try_initialize s) := by
  by_cases hg : (s.initialized_bot || !s.has_match_settings
      || !s.has_field_info || !s.has_player_mapping) = true
  · rw [bot_try_initialize_skip s hg]
    refine ⟨?_, h2, h3, h4⟩
    revert h1 hg
    cases s.initialized_bot <;> cases s.has_match_settings <;>
      cases s.has_field_info <;> cases s.has_player_mapping <;> simp
  · have hg' : (s.initialized_bot || !s.has_match_settings
        || !s.has_field_info || !s.has_player_mapping) = false := by
      revert hg
      cases hb : (s.initialized_bot || !s.has_match_settings
          || !s.has_field_info || !s.has_player_mapping) <;> simp
    obtain ⟨hi, hev, hms, hfi, hpm⟩ := bot_try_initialize_fire s hg'
    have hsinit : s.initialized_bot = false := by
      revert hg'
      cases s.initialized_bot <;> simp
    have hflags : s.has_match_settings = true ∧ s.has_field_info = true ∧
        s.has_player_mapping = true := by
      revert hg'
      cases s.has_match_settings <;> cases s.has_field_info <;>
        cases s.has_player_mapping <;> simp
    refine ⟨?_, ?_, ?_, ?_⟩
    · rw [hi, hms, hfi, hpm, hflags.1, hflags.2.1, hflags.2.2]
      rfl
    · rw [hi, hev, count_init_append]
      rw [hsinit] at h2
      simp only [if_neg Bool.false_ne_true] at h2
      rw [h2]
      decide
    · rw [hi, hev, count_ic_append]
      rw [hsinit] at h3
      simp only [if_neg Bool.false_ne_true] at h3
      rw [h3]
      decide
    · intro _
      rw [hev]
      exact init_adjacent_concat s.events

lemma BotInv_dispatch (s : BotState) (m : ServerMsg) (h : BotInv s) :
    BotInv (bot_dispatch s m) := by
  cases m with
  | matchConfig cfg =>
    refine BotInv_try_initialize _ ?_ h.2.1 h.2.2.1 h.2.2.2
    intro hinit
    have hinit' : s.initialized_bot = true := hinit
    have hc := h.1
    rw [hinit'] at hc
    revert hc
    cases s.has_match_settings <;> cases s.has_field_info <;>
      cases s.has_player_mapping <;> simp
  | fieldInfo info =>
    refine BotInv_try_initialize _ ?_ h.2.1 h.2.2.1 h.2.2.2
    intro hinit
    have hinit' : s.initialized_bot = true := hinit
    have hc := h.1
    rw [hinit'] at hc
    revert hc
    cases s.has_match_settings <;> cases s.has_field_info <;>
      cases s.has_player_mapping <;> simp
  | controllableTeamInfo team first rest =>
    refine BotInv_try_initialize _ ?_ h.2.1 h.2.2.1 h.2.2.2
    intro hinit
    have hinit' : s.initialized_bot = true := hinit
    have hc := h.1
    rw [hinit'] at hc
    revert hc
    cases s.has_match_settings <;> cases s.has_field_info <;>
      cases s.has_player_mapping <;> simp
  | gamePacket p => exact ⟨h.1, h.2.1, h.2.2.1, h.2.2.2⟩
  | ballPrediction bp => exact ⟨h.1, h.2.1, h.2.2.1, h.2.2.2⟩
  | matchComm mc => exact h
  | shutdown => exact h
  | other => exact h
  | gap => exact h

lemma bot_packet_processor_fields (s : BotState) (p : GamePacket) :
    (bot_packet_processor s p).initialized_bot = s.initialized_bot ∧
    (bot_packet_processor s p).has_match_settings = s.has_match_settings ∧
    (bot_packet_processor s p).has_field_info = s.has_field_info ∧
    (bot_packet_processor s p).has_player_mapping = s.has_player_mapping ∧
    ∃ t, (bot_packet_processor s p).events = s.events ++ t ∧
      count_init t = 0 ∧ count_ic t = 0 := by
  by_cases hg : (p.players.length : Int) ≤ s.index
  · refine ⟨?_, ?_, ?_, ?_, ⟨[AgentEvent.packetProcessorCalled p], ?_, rfl, rfl⟩⟩ <;>
      simp [bot_packet_processor, hg]
  · refine ⟨?_, ?_, ?_, ?_, ⟨[AgentEvent.packetProcessorCalled p,
      AgentEvent.getOutputCalled p, AgentEvent.playerInputSent s.index],
        ?_, rfl, rfl⟩⟩ <;>
      simp [bot_packet_processor, hg]

lemma BotInv_packet_processor (s : BotState) (p : GamePacket) (h : BotInv s) :
    BotInv (bot_packet_processor s p) := by
  obtain ⟨hi, hms, hfi, hpm, t, ht, hti, htc⟩ := bot_packet_processor_fields s p
  refine ⟨?_, ?_, ?_, ?_⟩
  · rw [hi, hms, hfi, hpm]
    exact h.1
  · rw [ht, count_init_append, hti, hi]
    simpa using h.2.1
  · rw [ht, count_ic_append, htc, hi]
    simpa using h.2.2.1
  · intro hI
    rw [hi] at hI
    rw [ht]
    exact init_adjacent_append _ _ (h.2.2.2 hI)

lemma BotInv_set_latest (x : BotState) (v : Option GamePacket) (h : BotInv x) :
    BotInv { x with latest_packet := v } :=
  ⟨h.1, h.2.1, h.2.2.1, h.2.2.2⟩

lemma BotInv_run_aux : ∀ (msgs : List ServerMsg) (s : BotState), BotInv s →
    BotInv (bot_run_aux msgs s) := by
  intro msgs
  induction msgs with
  | nil =>
    intro s h
    unfold bot_run_aux
    cases hl : s.latest_packet with
    | none => exact h
    | some p => exact BotInv_set_latest _ _ (BotInv_packet_processor s p h)
  | cons m rest ih =>
    intro s h
    cases m with
    | shutdown => exact h
    | gap =>
      cases hl : s.latest_packet with
      | none =>
        simp only [bot_run_aux, hl]
        exact ih s h
      | some p =>
        simp only [bot_run_aux, hl]
        exact ih _ (BotInv_set_latest _ _ (BotInv_packet_processor s p h))
    | matchConfig cfg =>
      rw [bot_run_aux_cons _ rest s (by simp) (by simp)]
      exact ih _ (BotInv_dispatch s _ h)
    | fieldInfo info =>
      rw [bot_run_aux_cons _ rest s (by simp) (by simp)]
      exact ih _ (BotInv_dispatch s _ h)
    | controllableTeamInfo team first rest2 =>
      rw [bot_run_aux_cons _ rest s (by simp) (by simp)]
      exact ih _ (BotInv_dispatch s _ h)
    | gamePacket p =>
      rw [bot_run_aux_cons _ rest s (by simp) (by simp)]
      exact ih _ (BotInv_dispatch s _ h)
    | ballPrediction bp =>
      rw [bot_run_aux_cons _ rest s (by simp) (by simp)]
      exact ih _ (BotInv_dispatch s _ h)
    | matchComm mc =>
      rw [bot_run_aux_cons _ rest s (by simp) (by simp)]
      exact ih _ (BotInv_dispatch s _ h)
    | other =>
      rw [bot_run_aux_cons _ rest s (by simp) (by simp)]
      exact ih _ (BotInv_dispatch s _ h)

lemma bot_dispatch_MS (s : BotState) (m : ServerMsg) :
    (bot_dispatch s m).has_match_settings =
      (s.has_match_settings || m.isMatchConfigB) := by
  cases m <;>
    simp [bot_dispatch, bot_handle_match_config, bot_handle_field_info,
      bot_handle_controllable_team_info, bot_handle_packet,
      bot_handle_ball_prediction, ServerMsg.isMatchConfigB,
      bot_try_initialize_flags]

lemma bot_dispatch_FI (s : BotState) (m : ServerMsg) :
    (bot_dispatch s m).has_field_info =
      (s.has_field_info || m.isFieldInfoB) := by
  cases m <;>
    simp [bot_dispatch, bot_handle_match_config, bot_handle_field_info,
      bot_handle_controllable_team_info, bot_handle_packet,
      bot_handle_ball_prediction, ServerMsg.isFieldInfoB,
      bot_try_initialize_flags]

lemma bot_dispatch_PM (s : BotState) (m : ServerMsg) :
    (bot_dispatch s m).has_player_mapping =
      (s.has_player_mapping || m.isControllableTeamInfoB) := by
  cases m <;>
    simp [bot_dispatch, bot_handle_match_config, bot_handle_field_info,
      bot_handle_controllable_team_info, bot_handle_packet,
      bot_handle_ball_prediction, ServerMsg.isControllableTeamInfoB,
      bot_try_initialize_flags]

lemma bot_dispatch_init_mono (s : BotState) (m : ServerMsg)
    (h : s.initialized_bot = true) :
    (bot_dispatch s m).initialized_bot = true := by
  cases m with
  | matchConfig cfg => exact bot_try_initialize_init_mono _ h
  | fieldInfo info => exact bot_try_initialize_init_mono _ h
  | controllableTeamInfo team first rest => exact bot_try_initialize_init_mono _ h
  | gamePacket p => exact h
  | ballPrediction bp => exact h
  | matchComm mc => exact h
  | shutdown => exact h
  | other => exact h
  | gap => exact h

lemma has_go_append (l t : List AgentEvent) :
    has_go (l ++ t) = (has_go l || has_go t) := by
  simp [has_go, List.any_append]

lemma bot_try_initialize_go (s : BotState) :
    has_go ( bot_try_initialize s).events = has_go s.events := by
  by_cases hg : (s.initialized_bot || !s.has_match_settings
      || !s.has_field_info || !s.has_player_mapping) = true
  · rw [bot_try_initialize_skip s hg]
  · have hg' : (s.initialized_bot || !s.has_match_settings
        || !s.has_field_info || !s.has_player_mapping) = false := by
      revert hg
      cases hb : (s.initialized_bot || !s.has_match_settings
          || !s.has_field_info || !s.has_player_mapping) <;> simp
    rw [( bot_try_initialize_fire s hg').2.1, has_go_append]
    simp [has_go, is_go_event]

lemma bot_dispatch_go (s : BotState) (m : ServerMsg) :
    has_go (bot_dispatch s m).events = has_go s.events := by
  cases m <;>
    simp [bot_dispatch, bot_handle_match_config, bot_handle_field_info,
      bot_handle_controllable_team_info, bot_handle_packet,
      bot_handle_ball_prediction, bot_try_initialize_go]

lemma bot_try_initialize_events_ext (s : BotState) :
    ∃ t, ( bot_try_initialize s).events = s.events ++ t := by
  by_cases hg : (s.initialized_bot || !s.has_match_settings
      || !s.has_field_info || !s.has_player_mapping) = true
  · exact ⟨[], by rw [bot_try_initialize_skip s hg]; simp⟩
  · have hg' : (s.initialized_bot || !s.has_match_settings
        || !s.has_field_info || !s.has_player_mapping) = false := by
      revert hg
      cases hb : (s.initialized_bot || !s.has_match_settings
          || !s.has_field_info || !s.has_player_mapping) <;> simp
    exact ⟨[AgentEvent.initializeCalled, AgentEvent.initCompleteSent],
      ( bot_try_initialize_fire s hg').2.1⟩

lemma bot_dispatch_events_ext (s : BotState) (m : ServerMsg) :
    ∃ t, (bot_dispatch s m).events = s.events ++ t := by
  cases m with
  | matchConfig cfg => exact bot_try_initialize_events_ext _
  | fieldInfo info => exact bot_try_initialize_events_ext _
  | controllableTeamInfo team first rest => exact bot_try_initialize_events_ext _
  | gamePacket p => exact ⟨[], by simp [bot_dispatch, bot_handle_packet]⟩
  | ballPrediction bp =>
    exact ⟨[], by simp [bot_dispatch, bot_handle_ball_prediction]⟩
  | matchComm mc => exact ⟨[], by simp [bot_dispatch]⟩
  | shutdown => exact ⟨[], by simp [bot_dispatch]⟩
  | other => exact ⟨[], by simp [bot_dispatch]⟩
  | gap => exact ⟨[], by simp [bot_dispatch]⟩

lemma bot_run_aux_events_ext : ∀ (msgs : List ServerMsg) (s : BotState),
    ∃ t, (bot_run_aux msgs s).events = s.events ++ t := by
  intro msgs
  induction msgs with
  | nil =>
    intro s
    unfold bot_run_aux
    cases hl : s.latest_packet with
    | none => exact ⟨[], by simp⟩
    | some p =>
      obtain ⟨_, _, _, _, t, ht, _, _⟩ := bot_packet_processor_fields s p
      exact ⟨t, ht⟩
  | cons m rest ih =>
    intro s
    cases m with
    | shutdown => exact ⟨[], by simp [bot_run_aux]⟩
    | gap =>
      cases hl : s.latest_packet with
      | none =>
        simp only [bot_run_aux, hl]
        exact ih s
      | some p =>
        simp only [bot_run_aux, hl]
        obtain ⟨_, _, _, _, t0, ht0, _, _⟩ := bot_packet_processor_fields s p
        obtain ⟨t1, ht1⟩ := ih { bot_packet_processor s p with latest_packet := none }
        exact ⟨t0 ++ t1, by rw [ht1, show ({ bot_packet_processor s p with
          latest_packet := none } : BotState).events =
            (bot_packet_processor s p).events from rfl, ht0,
          List.append_assoc]⟩
    | matchConfig cfg =>
      rw [bot_run_aux_cons _ rest s (by simp) (by simp)]
      obtain ⟨t0, ht0⟩ := bot_dispatch_events_ext s (.matchConfig cfg)
      obtain ⟨t1, ht1⟩ := ih (bot_dispatch s (.matchConfig cfg))
      exact ⟨t0 ++ t1, by rw [ht1, ht0, List.append_assoc]⟩
    | fieldInfo info =>
      rw [bot_run_aux_cons _ rest s (by simp) (by simp)]
      obtain ⟨t0, ht0⟩ := bot_dispatch_events_ext s (.fieldInfo info)
      obtain ⟨t1, ht1⟩ := ih (bot_dispatch s (.fieldInfo info))
      exact ⟨t0 ++ t1, by rw [ht1, ht0, List.append_assoc]⟩
    | controllableTeamInfo team first rest2 =>
      rw [bot_run_aux_cons _ rest s (by simp) (by simp)]
      obtain ⟨t0, ht0⟩ := bot_dispatch_events_ext s
        (.controllableTeamInfo team first rest2)
      obtain ⟨t1, ht1⟩ := ih (bot_dispatch s
        (.controllableTeamInfo team first rest2))
      exact ⟨t0 ++ t1, by rw [ht1, ht0, List.append_assoc]⟩
    | gamePacket p =>
      rw [bot_run_aux_cons _ rest s (by simp) (by simp)]
      obtain ⟨t0, ht0⟩ := bot_dispatch_events_ext s (.gamePacket p)
      obtain ⟨t1, ht1⟩ := ih (bot_dispatch s (.gamePacket p))
      exact ⟨t0 ++ t1, by rw [ht1, ht0, List.append_assoc]⟩
    | ballPrediction bp =>
      rw [bot_run_aux_cons _ rest s (by simp) (by simp)]
      obtain ⟨t0, ht0⟩ := bot_dispatch_events_ext s (.ballPrediction bp)
      obtain ⟨t1, ht1⟩ := ih (bot_dispatch s (.ballPrediction bp))
      exact ⟨t0 ++ t1, by rw [ht1, ht0, List.append_assoc]⟩
    | matchComm mc =>
      rw [bot_run_aux_cons _ rest s (by simp) (by simp)]
      obtain ⟨t0, ht0⟩ := bot_dispatch_events_ext s (.matchComm mc)
      obtain ⟨t1, ht1⟩ := ih (bot_dispatch s (.matchComm mc))
      exact ⟨t0 ++ t1, by rw [ht1, ht0, List.append_assoc]⟩
    | other =>
      rw [bot_run_aux_cons _ rest s (by simp) (by simp)]
      obtain ⟨t0, ht0⟩ := bot_dispatch_events_ext s .other
      obtain ⟨t1, ht1⟩ := ih (bot_dispatch s .other)
      exact ⟨t0 ++ t1, by rw [ht1, ht0, List.append_assoc]⟩

lemma bot_run_aux_init_mono : ∀ (msgs : List ServerMsg) (s : BotState),
    s.initialized_bot = true → (bot_run_aux msgs s).initialized_bot = true := by
  intro msgs
  induction msgs with
  | nil =>
    intro s h
    unfold bot_run_aux
    cases hl : s.latest_packet with
    | none => exact h
    | some p =>
      have := (bot_packet_processor_fields s p).1
      show (bot_packet_processor s p).initialized_bot = true
      rw [this]
      exact h
  | cons m rest ih =>
    intro s h
    cases m with
    | shutdown => exact h
    | gap =>
      cases hl : s.latest_packet with
      | none =>
        simp only [bot_run_aux, hl]
        exact ih s h
      | some p =>
        simp only [bot_run_aux, hl]
        refine ih _ ?_
        show (bot_packet_processor s p).initialized_bot = true
        rw [(bot_packet_processor_fields s p).1]
        exact h
    | matchConfig cfg =>
      rw [bot_run_aux_cons _ rest s (by simp) (by simp)]
      exact ih _ (bot_dispatch_init_mono s _ h)
    | fieldInfo info =>
      rw [bot_run_aux_cons _ rest s (by simp) (by simp)]
      exact ih _ (bot_dispatch_init_mono s _ h)
    | controllableTeamInfo team first rest2 =>
      rw [bot_run_aux_cons _ rest s (by simp) (by simp)]
      exact ih _ (bot_dispatch_init_mono s _ h)
    | gamePacket p =>
      rw [bot_run_aux_cons _ rest s (by simp) (by simp)]
      exact ih _ (bot_dispatch_init_mono s _ h)
    | ballPrediction bp =>
      rw [bot_run_aux_cons _ rest s (by simp) (by simp)]
      exact ih _ (bot_dispatch_init_mono s _ h)
    | matchComm mc =>
      rw [bot_run_aux_cons _ rest s (by simp) (by simp)]
      exact ih _ (bot_dispatch_init_mono s _ h)
    | other =>
      rw [bot_run_aux_cons _ rest s (by simp) (by simp)]
      exact ih _ (bot_dispatch_init_mono s _ h)

lemma bot_run_aux_flags_eq : ∀ (msgs : List ServerMsg) (s : BotState),
    no_shutdown msgs →
    (bot_run_aux msgs s).has_match_settings =
      (s.has_match_settings || msgs.any ServerMsg.isMatchConfigB) ∧
    (bot_run_aux msgs s).has_field_info =
      (s.has_field_info || msgs.any ServerMsg.isFieldInfoB) ∧
    (bot_run_aux msgs s).has_player_mapping =
      (s.has_player_mapping || msgs.any ServerMsg.isControllableTeamInfoB) := by
  intro msgs
  induction msgs with
  | nil =>
    intro s _
    unfold bot_run_aux
    cases hl : s.latest_packet with
    | none => simp
    | some p =>
      obtain ⟨_, hms, hfi, hpm, _⟩ := bot_packet_processor_fields s p
      refine ⟨?_, ?_, ?_⟩ <;> simp [hms, hfi, hpm]
  | cons m rest ih =>
    intro s hns
    have hsd : m ≠ ServerMsg.shutdown := by
      intro h
      exact hns (h ▸ List.mem_cons_self m rest)
    have hrest : no_shutdown rest := fun h => hns (List.mem_cons_of_mem m h)
    by_cases hgp : m = ServerMsg.gap
    · subst hgp
      cases hl : s.latest_packet with
      | none =>
        obtain ⟨e1, e2, e3⟩ := ih s hrest
        refine ⟨?_, ?_, ?_⟩ <;> simp only [bot_run_aux, hl] <;>
          simp [e1, e2, e3, ServerMsg.isMatchConfigB, ServerMsg.isFieldInfoB,
            ServerMsg.isControllableTeamInfoB]
      | some p =>
        obtain ⟨e1, e2, e3⟩ := ih
          { bot_packet_processor s p with latest_packet := none } hrest
        obtain ⟨_, hms, hfi, hpm, _⟩ := bot_packet_processor_fields s p
        refine ⟨?_, ?_, ?_⟩
        · simp only [bot_run_aux, hl]
          rw [e1]
          simp [hms, ServerMsg.isMatchConfigB]
        · simp only [bot_run_aux, hl]
          rw [e2]
          simp [hfi, ServerMsg.isFieldInfoB]
        · simp only [bot_run_aux, hl]
          rw [e3]
          simp [hpm, ServerMsg.isControllableTeamInfoB]
    · rw [bot_run_aux_cons m rest s hsd hgp]
      obtain ⟨e1, e2, e3⟩ := ih (bot_dispatch s m) hrest
      refine ⟨?_, ?_, ?_⟩
      · rw [e1, bot_dispatch_MS]
        simp [Bool.or_assoc]
      · rw [e2, bot_dispatch_FI]
        simp [Bool.or_assoc]
      · rw [e3, bot_dispatch_PM]
        simp [Bool.or_assoc]

lemma pending_after_single_not_packet (latest : Option GamePacket)
    (m : ServerMsg) (h : m.isPacketB = false) :
    pending_after latest [m] = latest := by
  cases m <;> first
    | rfl
    | exact absurd h (by simp [ServerMsg.isPacketB])

lemma bot_foldl_inv (l : List ServerMsg) : ∀ s : BotState, BotInv s →
    BotInv (List.foldl bot_dispatch s l) := by
  induction l with
  | nil => exact fun s h => h
  | cons m rest ih => exact fun s h => ih _ (BotInv_dispatch s m h)

lemma bot_foldl_flags (l : List ServerMsg) : ∀ s : BotState,
    (List.foldl bot_dispatch s l).has_match_settings =
      (s.has_match_settings || l.any ServerMsg.isMatchConfigB) ∧
    (List.foldl bot_dispatch s l).has_field_info =
      (s.has_field_info || l.any ServerMsg.isFieldInfoB) ∧
    (List.foldl bot_dispatch s l).has_player_mapping =
      (s.has_player_mapping || l.any ServerMsg.isControllableTeamInfoB) := by
  induction l with
  | nil => intro s; simp
  | cons m rest ih =>
    intro s
    obtain ⟨e1, e2, e3⟩ := ih (bot_dispatch s m)
    refine ⟨?_, ?_, ?_⟩
    · rw [List.foldl_cons, e1, bot_dispatch_MS]
      simp [Bool.or_assoc]
    · rw [List.foldl_cons, e2, bot_dispatch_FI]
      simp [Bool.or_assoc]
    · rw [List.foldl_cons, e3, bot_dispatch_PM]
      simp [Bool.or_assoc]

lemma bot_foldl_go (l : List ServerMsg) : ∀ s : BotState,
    has_go (List.foldl bot_dispatch s l).events = has_go s.events := by
  induction l with
  | nil => exact fun s => rfl
  | cons m rest ih =>
    intro s
    rw [List.foldl_cons, ih, bot_dispatch_go]

lemma bot_foldl_latest_none (l : List ServerMsg) : ∀ s : BotState,
    l.any ServerMsg.isPacketB = false → s.latest_packet = none →
    (List.foldl bot_dispatch s l).latest_packet = none := by
  induction l with
  | nil => exact fun s _ h => h
  | cons m rest ih =>
    intro s hnp hlat
    have h12 : m.isPacketB = false ∧ rest.any ServerMsg.isPacketB = false := by
      simpa using hnp
    rw [List.foldl_cons]
    exact ih _ h12.2 (by
      rw [bot_dispatch_latest, pending_after_single_not_packet _ _ h12.1, hlat])

lemma bot_run_aux_phase1 : ∀ (l1 l2 : List ServerMsg) (s : BotState),
    no_shutdown l1 → l1.any ServerMsg.isPacketB = false →
    s.latest_packet = none →
    bot_run_aux (l1 ++ l2) s = bot_run_aux l2 (List.foldl bot_dispatch s l1) := by
  intro l1
  induction l1 with
  | nil => exact fun l2 s _ _ _ => rfl
  | cons m rest ih =>
    intro l2 s hns hnp hlat
    have hsd : m ≠ ServerMsg.shutdown := by
      intro h
      exact hns (h ▸ List.mem_cons_self m rest)
    have hrest : no_shutdown rest := fun h => hns (List.mem_cons_of_mem m h)
    have h12 : m.isPacketB = false ∧ rest.any ServerMsg.isPacketB = false := by
      simpa using hnp
    by_cases hgp : m = ServerMsg.gap
    · subst hgp
      show bot_run_aux (ServerMsg.gap :: (rest ++ l2)) s = _
      simp only [bot_run_aux, hlat]
      rw [ih l2 s hrest h12.2 hlat]
      rfl
    · rw [show (m :: rest) ++ l2 = m :: (rest ++ l2) from rfl,
        bot_run_aux_cons m (rest ++ l2) s hsd hgp,
        ih l2 (bot_dispatch s m) hrest h12.2 (by
          rw [bot_dispatch_latest, pending_after_single_not_packet _ _ h12.1,
            hlat])]
      rfl

lemma bot_init_latch (msgs : List ServerMsg) :
    count_init (bot_run msgs).events ≤ 1 ∧
    count_ic (bot_run msgs).events = count_init (bot_run msgs).events ∧
    (count_init (bot_run msgs).events = 1 →
      init_adjacent (bot_run msgs).events) := by
  obtain ⟨c1, c2, c3, c4⟩ := BotInv_run_aux msgs bot_initial BotInv_initial
  refine ⟨?_, ?_, ?_⟩
  · rw [show bot_run msgs = bot_run_aux msgs bot_initial from rfl, c2]
    cases (bot_run_aux msgs bot_initial).initialized_bot <;> simp
  · rw [show bot_run msgs = bot_run_aux msgs bot_initial from rfl, c2, c3]
  · intro h1
    rw [show bot_run msgs = bot_run_aux msgs bot_initial from rfl] at h1 ⊢
    cases hI : (bot_run_aux msgs bot_initial).initialized_bot with
    | true => exact c4 hI
    | false =>
      rw [hI] at c2
      simp at c2
      rw [c2] at h1
      exact absurd h1 (by decide)

lemma bot_init_only_after (msgs : List ServerMsg) (hns : no_shutdown msgs)
    (hmiss : msgs.any ServerMsg.isMatchConfigB = false ∨
      msgs.any ServerMsg.isFieldInfoB = false ∨
      msgs.any ServerMsg.isControllableTeamInfoB = false) :
    count_init (bot_run msgs).events = 0 := by
  obtain ⟨c1, c2, c3, c4⟩ := BotInv_run_aux msgs bot_initial BotInv_initial
  obtain ⟨f1, f2, f3⟩ := bot_run_aux_flags_eq msgs bot_initial hns
  rw [show bot_run msgs = bot_run_aux msgs bot_initial from rfl, c2]
  have hinit : (bot_run_aux msgs bot_initial).initialized_bot = false := by
    rw [c1, f1, f2, f3]
    rcases hmiss with h | h | h <;> rw [h] <;> simp [bot_initial]
  rw [hinit]
  rfl

lemma bot_init_exactly_once (msgs : List ServerMsg) (hns : no_shutdown msgs)
    (hmc : msgs.any ServerMsg.isMatchConfigB = true)
    (hfi : msgs.any ServerMsg.isFieldInfoB = true)
    (hcti : msgs.any ServerMsg.isControllableTeamInfoB = true) :
    count_init (bot_run msgs).events = 1 ∧
    count_ic (bot_run msgs).events = 1 ∧
    init_adjacent (bot_run msgs).events := by
  obtain ⟨c1, c2, c3, c4⟩ := BotInv_run_aux msgs bot_initial BotInv_initial
  obtain ⟨f1, f2, f3⟩ := bot_run_aux_flags_eq msgs bot_initial hns
  have hinit : (bot_run_aux msgs bot_initial).initialized_bot = true := by
    rw [c1, f1, f2, f3, hmc, hfi, hcti]
    simp
  rw [show bot_run msgs = bot_run_aux msgs bot_initial from rfl, c2, c3, hinit]
  exact ⟨rfl, rfl, c4 hinit⟩

/-- If the three prerequisites (and no packet, no shutdown) form a prefix
`l1` of the arrival sequence, every `get_output` call event in the full
run's trace comes strictly after the `initialize` call event. -/
lemma bot_go_after_init (l1 l2 : List ServerMsg) (hns : no_shutdown l1)
    (hnp : l1.any ServerMsg.isPacketB = false)
    (hmc : l1.any ServerMsg.isMatchConfigB = true)
    (hfi : l1.any ServerMsg.isFieldInfoB = true)
    (hcti : l1.any ServerMsg.isControllableTeamInfoB = true) :
    ∀ (i j : Nat) (p : GamePacket),
      (bot_run (l1 ++ l2)).events[i]? = some (AgentEvent.getOutputCalled p) →
      (bot_run (l1 ++ l2)).events[j]? = some AgentEvent.initializeCalled →
      j < i := by
  intro i j p hi hj
  rw [show bot_run (l1 ++ l2) = bot_run_aux (l1 ++ l2) bot_initial from rfl,
    bot_run_aux_phase1 l1 l2 bot_initial hns hnp rfl] at hi hj
  set s1 := List.foldl bot_dispatch bot_initial l1 with hs1
  have hinv1 : BotInv s1 := bot_foldl_inv l1 bot_initial BotInv_initial
  obtain ⟨f1, f2, f3⟩ := bot_foldl_flags l1 bot_initial
  have hs1init : s1.initialized_bot = true := by
    rw [hinv1.1, f1, f2, f3, hmc, hfi, hcti]
    simp
  have hc1 : count_init s1.events = 1 := by
    rw [hinv1.2.1, hs1init]
    decide
  have hgo1 : has_go s1.events = false := bot_foldl_go l1 bot_initial
  have hinvf : BotInv (bot_run_aux l2 s1) := BotInv_run_aux l2 s1 hinv1
  have hfinit : (bot_run_aux l2 s1).initialized_bot = true :=
    bot_run_aux_init_mono l2 s1 hs1init
  have hcf : count_init (bot_run_aux l2 s1).events = 1 := by
    rw [hinvf.2.1, hfinit]
    decide
  obtain ⟨t, ht⟩ := bot_run_aux_events_ext l2 s1
  have hct : count_init t = 0 := by
    rw [ht, count_init_append, hc1] at hcf
    omega
  rw [ht] at hi hj
  have hjlt : j < s1.events.length := by
    by_contra hge
    push_neg at hge
    rw [List.getElem?_append_right hge] at hj
    have hmem : AgentEvent.initializeCalled ∈ t := by
      obtain ⟨hb, heq⟩ := List.getElem?_eq_some_iff.mp hj
      exact heq ▸ List.getElem_mem hb
    have : is_init_event AgentEvent.initializeCalled = true := rfl
    have hpos : 0 < count_init t := by
      rw [count_init]
      have := List.mem_filter.mpr ⟨hmem, this⟩
      exact List.length_pos.mpr
        (fun hnil => by rw [hnil] at this; exact List.not_mem_nil _ this)
    omega
  have hige : s1.events.length ≤ i := by
    by_contra hlt
    push_neg at hlt
    rw [List.getElem?_append_left hlt] at hi
    have hmem : AgentEvent.getOutputCalled p ∈ s1.events := by
      obtain ⟨hb, heq⟩ := List.getElem?_eq_some_iff.mp hi
      exact heq ▸ List.getElem_mem hb
    have : has_go s1.events = true :=
      List.any_eq_true.mpr ⟨_, hmem, rfl⟩
    rw [hgo1] at this
    exact absurd this (by decide)
  omega

/-- The per-connection latch invariant of a `Hivemind` (the mirror of
`BotInv`). -/
def HivemindInv (s : HivemindState) : Prop :=
  s.initialized_bot =
    (s.has_match_settings && s.has_field_info && s.has_player_mapping) ∧
  count_init s.events = (if s.initialized_bot then 1 else 0) ∧
  count_ic s.events = (if s.initialized_bot then 1 else 0) ∧
  (s.initialized_bot = true → init_adjacent s.events)

lemma HivemindInv_initial : HivemindInv hivemind_initial := by
  refine ⟨rfl, rfl, rfl, ?_⟩
  intro h
  exact absurd h (by decide)

lemma hivemind_try_initialize_skip (s : HivemindState)
    (h : (s.initialized_bot || !s.has_match_settings || !s.has_field_info
      || !s.has_player_mapping) = true) :
    hivemind_try_initialize s = s := by
  unfold hivemind_try_initialize
  rw [if_pos h]

lemma hivemind_try_initialize_fire (s : HivemindState)
    (h : (s.initialized_bot || !s.has_match_settings || !s.has_field_info
      || !s.has_player_mapping) = false) :
    ( hivemind_try_initialize s).initialized_bot = true ∧
    ( hivemind_try_initialize s).events = s.events ++
      [AgentEvent.initializeCalled, AgentEvent.initCompleteSent] ∧
    ( hivemind_try_initialize s).has_match_settings = s.has_match_settings ∧
    ( hivemind_try_initialize s).has_field_info = s.has_field_info ∧
    ( hivemind_try_initialize s).has_player_mapping = s.has_player_mapping := by
  unfold hivemind_try_initialize
  rw [if_neg (by simp [h])]
  exact ⟨rfl, by simp, rfl, rfl, rfl⟩

lemma hivemind_try_initialize_flags (s : HivemindState) :
    ( hivemind_try_initialize s).has_match_settings = s.has_match_settings ∧
    ( hivemind_try_initialize s).has_field_info = s.has_field_info ∧
    ( hivemind_try_initialize s).has_player_mapping = s.has_player_mapping ∧
    ( hivemind_try_initialize s).latest_packet = s.latest_packet := by
  unfold hivemind_try_initialize
  split
  · exact ⟨rfl, rfl, rfl, rfl⟩
  · exact ⟨rfl, rfl, rfl, rfl⟩

lemma hivemind_try_initialize_init_mono (s : HivemindState)
    (h : s.initialized_bot = true) :
    ( hivemind_try_initialize s).initialized_bot = true := by
  rw [hivemind_try_initialize_skip s (by simp [h])]
  exact h

lemma HivemindInv_try_initialize (s : HivemindState)
    (h1 : s.initialized_bot = true →
      (s.has_match_settings && s.has_field_info && s.has_player_mapping) = true)
    (h2 : count_init s.events = (if s.initialized_bot then 1 else 0))
    (h3 : count_ic s.events = (if s.initialized_bot then 1 else 0))
    (h4 : s.initialized_bot = true → init_adjacent s.events) :
    HivemindInv ( hivemind_try_initialize s) := by
  by_cases hg : (s.initialized_bot || !s.has_match_settings
      || !s.has_field_info || !s.has_player_mapping) = true
  · rw [hivemind_try_initialize_skip s hg]
    refine ⟨?_, h2, h3, h4⟩
    revert h1 hg
    cases s.initialized_bot <;> cases s.has_match_settings <;>
      cases s.has_field_info <;> cases s.has_player_mapping <;> simp
  · have hg' : (s.initialized_bot || !s.has_match_settings
        || !s.has_field_info || !s.has_player_mapping) = false := by
      revert hg
      cases hb : (s.initialized_bot || !s.has_match_settings
          || !s.has_field_info || !s.has_player_mapping) <;> simp
    obtain ⟨hi, hev, hms, hfi, hpm⟩ := hivemind_try_initialize_fire s hg'
    have hsinit : s.initialized_bot = false := by
      revert hg'
      cases s.initialized_bot <;> simp
    have hflags : s.has_match_settings = true ∧ s.has_field_info = true ∧
        s.has_player_mapping = true := by
      revert hg'
      cases s.has_match_settings <;> cases s.has_field_info <;>
        cases s.has_player_mapping <;> simp
    refine ⟨?_, ?_, ?_, ?_⟩
    · rw [hi, hms, hfi, hpm, hflags.1, hflags.2.1, hflags.2.2]
      rfl
    · rw [hi, hev, count_init_append]
      rw [hsinit] at h2
      simp only [if_neg Bool.false_ne_true] at h2
      rw [h2]
      decide
    · rw [hi, hev, count_ic_append]
      rw [hsinit] at h3
      simp only [if_neg Bool.false_ne_true] at h3
      rw [h3]
      decide
    · intro _
      rw [hev]
      exact init_adjacent_concat s.events

lemma HivemindInv_dispatch (s : HivemindState) (m : ServerMsg)
    (h : HivemindInv s) : HivemindInv (hivemind_dispatch s m) := by
  cases m with
  | matchConfig cfg =>
    refine HivemindInv_try_initialize _ ?_ h.2.1 h.2.2.1 h.2.2.2
    intro hinit
    have hinit' : s.initialized_bot = true := hinit
    have hc := h.1
    rw [hinit'] at hc
    revert hc
    cases s.has_match_settings <;> cases s.has_field_info <;>
      cases s.has_player_mapping <;> simp
  | fieldInfo info =>
    refine HivemindInv_try_initialize _ ?_ h.2.1 h.2.2.1 h.2.2.2
    intro hinit
    have hinit' : s.initialized_bot = true := hinit
    have hc := h.1
    rw [hinit'] at hc
    revert hc
    cases s.has_match_settings <;> cases s.has_field_info <;>
      cases s.has_player_mapping <;> simp
  | controllableTeamInfo team first rest =>
    refine HivemindInv_try_initialize _ ?_ h.2.1 h.2.2.1 h.2.2.2
    intro hinit
    have hinit' : s.initialized_bot = true := hinit
    have hc := h.1
    rw [hinit'] at hc
    revert hc
    cases s.has_match_settings <;> cases s.has_field_info <;>
      cases s.has_player_mapping <;> simp
  | gamePacket p => exact ⟨h.1, h.2.1, h.2.2.1, h.2.2.2⟩
  | ballPrediction bp => exact ⟨h.1, h.2.1, h.2.2.1, h.2.2.2⟩
  | matchComm mc => exact h
  | shutdown => exact h
  | other => exact h
  | gap => exact h

lemma send_player_inputs_counts (indices returned : List Nat) :
    count_init (hivemind_send_player_inputs indices returned) = 0 ∧
    count_ic (hivemind_send_player_inputs indices returned) = 0 := by
  suffices h : ∀ (r : List Nat) (es : List AgentEvent),
      count_init (r.foldl (fun es i =>
        es ++ (if indices.contains i then [] else [AgentEvent.warningLogged])
          ++ [AgentEvent.playerInputSent (i : Int)]) es) = count_init es ∧
      count_ic (r.foldl (fun es i =>
        es ++ (if indices.contains i then [] else [AgentEvent.warningLogged])
          ++ [AgentEvent.playerInputSent (i : Int)]) es) = count_ic es by
    exact h returned []
  intro r
  induction r with
  | nil => exact fun es => ⟨rfl, rfl⟩
  | cons i rest ih =>
    intro es
    rw [List.foldl_cons]
    obtain ⟨ih1, ih2⟩ := ih (es ++ (if indices.contains i then []
      else [AgentEvent.warningLogged]) ++ [AgentEvent.playerInputSent (i : Int)])
    rw [ih1, ih2]
    by_cases hc : indices.contains i <;>
      simp [hc, count_init_append, count_ic_append, count_init, count_ic,
        is_init_event, is_ic_event]

lemma hivemind_packet_processor_fields (gout : GamePacket → List Nat)
    (s : HivemindState) (p : GamePacket) :
    (hivemind_packet_processor gout s p).1.initialized_bot =
      s.initialized_bot ∧
    (hivemind_packet_processor gout s p).1.has_match_settings =
      s.has_match_settings ∧
    (hivemind_packet_processor gout s p).1.has_field_info = s.has_field_info ∧
    (hivemind_packet_processor gout s p).1.has_player_mapping =
      s.has_player_mapping ∧
    ∃ t, (hivemind_packet_processor gout s p).1.events = s.events ++ t ∧
      count_init t = 0 ∧ count_ic t = 0 := by
  cases hli : s.indices.getLast? with
  | none =>
    refine ⟨?_, ?_, ?_, ?_,
      ⟨[AgentEvent.packetProcessorCalled p], ?_, rfl, rfl⟩⟩ <;>
      simp [hivemind_packet_processor, hli]
  | some last =>
    by_cases hg : (p.players.length : Int) ≤ (last : Int)
    · refine ⟨?_, ?_, ?_, ?_,
        ⟨[AgentEvent.packetProcessorCalled p], ?_, rfl, rfl⟩⟩ <;>
        simp [hivemind_packet_processor, hli, hg]
    · refine ⟨?_, ?_, ?_, ?_,
        ⟨[AgentEvent.packetProcessorCalled p, AgentEvent.getOutputCalled p]
          ++ hivemind_send_player_inputs s.indices (gout p), ?_, ?_, ?_⟩⟩
      · simp [hivemind_packet_processor, hli, hg]
      · simp [hivemind_packet_processor, hli, hg]
      · simp [hivemind_packet_processor, hli, hg]
      · simp [hivemind_packet_processor, hli, hg]
      · simp [hivemind_packet_processor, hli, hg]
      · rw [count_init_append, (send_player_inputs_counts s.indices (gout p)).1]
        rfl
      · rw [count_ic_append, (send_player_inputs_counts s.indices (gout p)).2]
        rfl

lemma HivemindInv_packet_processor (gout : GamePacket → List Nat)
    (s : HivemindState) (p : GamePacket) (h : HivemindInv s) :
    HivemindInv (hivemind_packet_processor gout s p).1 := by
  obtain ⟨hi, hms, hfi, hpm, t, ht, hti, htc⟩ :=
    hivemind_packet_processor_fields gout s p
  refine ⟨?_, ?_, ?_, ?_⟩
  · rw [hi, hms, hfi, hpm]
    exact h.1
  · rw [ht, count_init_append, hti, hi]
    simpa using h.2.1
  · rw [ht, count_ic_append, htc, hi]
    simpa using h.2.2.1
  · intro hI
    rw [hi] at hI
    rw [ht]
    exact init_adjacent_append _ _ (h.2.2.2 hI)

lemma HivemindInv_set_latest (x : HivemindState) (v : Option GamePacket)
    (h : HivemindInv x) : HivemindInv { x with latest_packet := v } :=
  ⟨h.1, h.2.1, h.2.2.1, h.2.2.2⟩

lemma HivemindInv_run_aux (gout : GamePacket → List Nat) :
    ∀ (msgs : List ServerMsg) (s : HivemindState), HivemindInv s →
    HivemindInv (hivemind_run_aux gout msgs s) := by
  intro msgs
  induction msgs with
  | nil =>
    intro s h
    cases hl : s.latest_packet with
    | none => simpa only [hivemind_run_aux, hl] using h
    | some p =>
      simp only [hivemind_run_aux, hl]
      cases hp : hivemind_packet_processor gout s p with
      | mk s1 raised =>
        have hinv1 : HivemindInv s1 := by
          have hq := HivemindInv_packet_processor gout s p h
          rw [hp] at hq
          exact hq
        cases raised with
        | true => exact hinv1
        | false => exact HivemindInv_set_latest _ _ hinv1
  | cons m rest ih =>
    intro s h
    cases m with
    | shutdown => exact h
    | gap =>
      cases hl : s.latest_packet with
      | none =>
        simp only [hivemind_run_aux, hl]
        exact ih s h
      | some p =>
        simp only [hivemind_run_aux, hl]
        cases hp : hivemind_packet_processor gout s p with
        | mk s1 raised =>
          have hinv1 : HivemindInv s1 := by
            have hq := HivemindInv_packet_processor gout s p h
            rw [hp] at hq
            exact hq
          cases raised with
          | true => exact hinv1
          | false => exact ih _ (HivemindInv_set_latest _ _ hinv1)
    | matchConfig cfg =>
      rw [hivemind_run_aux_cons gout _ rest s (by simp) (by simp)]
      exact ih _ (HivemindInv_dispatch s _ h)
    | fieldInfo info =>
      rw [hivemind_run_aux_cons gout _ rest s (by simp) (by simp)]
      exact ih _ (HivemindInv_dispatch s _ h)
    | controllableTeamInfo team first rest2 =>
      rw [hivemind_run_aux_cons gout _ rest s (by simp) (by simp)]
      exact ih _ (HivemindInv_dispatch s _ h)
    | gamePacket p =>
      rw [hivemind_run_aux_cons gout _ rest s (by simp) (by simp)]
      exact ih _ (HivemindInv_dispatch s _ h)
    | ballPrediction bp =>
      rw [hivemind_run_aux_cons gout _ rest s (by simp) (by simp)]
      exact ih _ (HivemindInv_dispatch s _ h)
    | matchComm mc =>
      rw [hivemind_run_aux_cons gout _ rest s (by simp) (by simp)]
      exact ih _ (HivemindInv_dispatch s _ h)
    | other =>
      rw [hivemind_run_aux_cons gout _ rest s (by simp) (by simp)]
      exact ih _ (HivemindInv_dispatch s _ h)

lemma hivemind_dispatch_MS (s : HivemindState) (m : ServerMsg) :
    (hivemind_dispatch s m).has_match_settings =
      (s.has_match_settings || m.isMatchConfigB) := by
  cases m <;>
    simp [hivemind_dispatch, hivemind_handle_match_config,
      hivemind_handle_field_info, hivemind_handle_controllable_team_info,
      hivemind_handle_packet, hivemind_handle_ball_prediction,
      ServerMsg.isMatchConfigB, hivemind_try_initialize_flags]

lemma hivemind_dispatch_FI (s : HivemindState) (m : ServerMsg) :
    (hivemind_dispatch s m).has_field_info =
      (s.has_field_info || m.isFieldInfoB) := by
  cases m <;>
    simp [hivemind_dispatch, hivemind_handle_match_config,
      hivemind_handle_field_info, hivemind_handle_controllable_team_info,
      hivemind_handle_packet, hivemind_handle_ball_prediction,
      ServerMsg.isFieldInfoB, hivemind_try_initialize_flags]

lemma hivemind_dispatch_PM (s : HivemindState) (m : ServerMsg) :
    (hivemind_dispatch s m).has_player_mapping =
      (s.has_player_mapping || m.isControllableTeamInfoB) := by
  cases m <;>
    simp [hivemind_dispatch, hivemind_handle_match_config,
      hivemind_handle_field_info, hivemind_handle_controllable_team_info,
      hivemind_handle_packet, hivemind_handle_ball_prediction,
      ServerMsg.isControllableTeamInfoB, hivemind_try_initialize_flags]

lemma hivemind_dispatch_init_mono (s : HivemindState) (m : ServerMsg)
    (h : s.initialized_bot = true) :
    (hivemind_dispatch s m).initialized_bot = true := by
  cases m with
  | matchConfig cfg => exact hivemind_try_initialize_init_mono _ h
  | fieldInfo info => exact hivemind_try_initialize_init_mono _ h
  | controllableTeamInfo team first rest =>
    exact hivemind_try_initialize_init_mono _ h
  | gamePacket p => exact h
  | ballPrediction bp => exact h
  | matchComm mc => exact h
  | shutdown => exact h
  | other => exact h
  | gap => exact h

lemma hivemind_try_initialize_go (s : HivemindState) :
    has_go ( hivemind_try_initialize s).events = has_go s.events := by
  by_cases hg : (s.initialized_bot || !s.has_match_settings
      || !s.has_field_info || !s.has_player_mapping) = true
  · rw [hivemind_try_initialize_skip s hg]
  · have hg' : (s.initialized_bot || !s.has_match_settings
        || !s.has_field_info || !s.has_player_mapping) = false := by
      revert hg
      cases hb : (s.initialized_bot || !s.has_match_settings
          || !s.has_field_info || !s.has_player_mapping) <;> simp
    rw [( hivemind_try_initialize_fire s hg').2.1, has_go_append]
    simp [has_go, is_go_event]

lemma hivemind_dispatch_go (s : HivemindState) (m : ServerMsg) :
    has_go (hivemind_dispatch s m).events = has_go s.events := by
  cases m <;>
    simp [hivemind_dispatch, hivemind_handle_match_config,
      hivemind_handle_field_info, hivemind_handle_controllable_team_info,
      hivemind_handle_packet, hivemind_handle_ball_prediction,
      hivemind_try_initialize_go]

lemma hivemind_try_initialize_events_ext (s : HivemindState) :
    ∃ t, ( hivemind_try_initialize s).events = s.events ++ t := by
  by_cases hg : (s.initialized_bot || !s.has_match_settings
      || !s.has_field_info || !s.has_player_mapping) = true
  · exact ⟨[], by rw [hivemind_try_initialize_skip s hg]; simp⟩
  · have hg' : (s.initialized_bot || !s.has_match_settings
        || !s.has_field_info || !s.has_player_mapping) = false := by
      revert hg
      cases hb : (s.initialized_bot || !s.has_match_settings
          || !s.has_field_info || !s.has_player_mapping) <;> simp
    exact ⟨[AgentEvent.initializeCalled, AgentEvent.initCompleteSent],
      ( hivemind_try_initialize_fire s hg').2.1⟩

lemma hivemind_dispatch_events_ext (s : HivemindState) (m : ServerMsg) :
    ∃ t, (hivemind_dispatch s m).events = s.events ++ t := by
  cases m with
  | matchConfig cfg => exact hivemind_try_initialize_events_ext _
  | fieldInfo info => exact hivemind_try_initialize_events_ext _
  | controllableTeamInfo team first rest =>
    exact hivemind_try_initialize_events_ext _
  | gamePacket p => exact ⟨[], by simp [hivemind_dispatch, hivemind_handle_packet]⟩
  | ballPrediction bp =>
    exact ⟨[], by simp [hivemind_dispatch, hivemind_handle_ball_prediction]⟩
  | matchComm mc => exact ⟨[], by simp [hivemind_dispatch]⟩
  | shutdown => exact ⟨[], by simp [hivemind_dispatch]⟩
  | other => exact ⟨[], by simp [hivemind_dispatch]⟩
  | gap => exact ⟨[], by simp [hivemind_dispatch]⟩

lemma hivemind_run_aux_events_ext (gout : GamePacket → List Nat) :
    ∀ (msgs : List ServerMsg) (s : HivemindState),
    ∃ t, (hivemind_run_aux gout msgs s).events = s.events ++ t := by
  intro msgs
  induction msgs with
  | nil =>
    intro s
    cases hl : s.latest_packet with
    | none => exact ⟨[], by simp [hivemind_run_aux, hl]⟩
    | some p =>
      simp only [hivemind_run_aux, hl]
      obtain ⟨_, _, _, _, t, ht, _, _⟩ := hivemind_packet_processor_fields gout s p
      cases hp : hivemind_packet_processor gout s p with
      | mk s1 raised =>
        rw [hp] at ht
        cases raised with
        | true => exact ⟨t, ht⟩
        | false => exact ⟨t, ht⟩
  | cons m rest ih =>
    intro s
    cases m with
    | shutdown => exact ⟨[], by simp [hivemind_run_aux]⟩
    | gap =>
      cases hl : s.latest_packet with
      | none =>
        simp only [hivemind_run_aux, hl]
        exact ih s
      | some p =>
        simp only [hivemind_run_aux, hl]
        obtain ⟨_, _, _, _, t, ht, _, _⟩ :=
          hivemind_packet_processor_fields gout s p
        cases hp : hivemind_packet_processor gout s p with
        | mk s1 raised =>
          rw [hp] at ht
          cases raised with
          | true => exact ⟨t, ht⟩
          | false =>
            obtain ⟨t1, ht1⟩ := ih { s1 with latest_packet := none }
            exact ⟨t ++ t1, by rw [ht1, show ({ s1 with latest_packet := none }
              : HivemindState).events = s1.events from rfl, ht,
              List.append_assoc]⟩
    | matchConfig cfg =>
      rw [hivemind_run_aux_cons gout _ rest s (by simp) (by simp)]
      obtain ⟨t0, ht0⟩ := hivemind_dispatch_events_ext s (.matchConfig cfg)
      obtain ⟨t1, ht1⟩ := ih (hivemind_dispatch s (.matchConfig cfg))
      exact ⟨t0 ++ t1, by rw [ht1, ht0, List.append_assoc]⟩
    | fieldInfo info =>
      rw [hivemind_run_aux_cons gout _ rest s (by simp) (by simp)]
      obtain ⟨t0, ht0⟩ := hivemind_dispatch_events_ext s (.fieldInfo info)
      obtain ⟨t1, ht1⟩ := ih (hivemind_dispatch s (.fieldInfo info))
      exact ⟨t0 ++ t1, by rw [ht1, ht0, List.append_assoc]⟩
    | controllableTeamInfo team first rest2 =>
      rw [hivemind_run_aux_cons gout _ rest s (by simp) (by simp)]
      obtain ⟨t0, ht0⟩ := hivemind_dispatch_events_ext s
        (.controllableTeamInfo team first rest2)
      obtain ⟨t1, ht1⟩ := ih (hivemind_dispatch s
        (.controllableTeamInfo team first rest2))
      exact ⟨t0 ++ t1, by rw [ht1, ht0, List.append_assoc]⟩
    | gamePacket p =>
      rw [hivemind_run_aux_cons gout _ rest s (by simp) (by simp)]
      obtain ⟨t0, ht0⟩ := hivemind_dispatch_events_ext s (.gamePacket p)
      obtain ⟨t1, ht1⟩ := ih (hivemind_dispatch s (.gamePacket p))
      exact ⟨t0 ++ t1, by rw [ht1, ht0, List.append_assoc]⟩
    | ballPrediction bp =>
      rw [hivemind_run_aux_cons gout _ rest s (by simp) (by simp)]
      obtain ⟨t0, ht0⟩ := hivemind_dispatch_events_ext s (.ballPrediction bp)
      obtain ⟨t1, ht1⟩ := ih (hivemind_dispatch s (.ballPrediction bp))
      exact ⟨t0 ++ t1, by rw [ht1, ht0, List.append_assoc]⟩
    | matchComm mc =>
      rw [hivemind_run_aux_cons gout _ rest s (by simp) (by simp)]
      obtain ⟨t0, ht0⟩ := hivemind_dispatch_events_ext s (.matchComm mc)
      obtain ⟨t1, ht1⟩ := ih (hivemind_dispatch s (.matchComm mc))
      exact ⟨t0 ++ t1, by rw [ht1, ht0, List.append_assoc]⟩
    | other =>
      rw [hivemind_run_aux_cons gout _ rest s (by simp) (by simp)]
      obtain ⟨t0, ht0⟩ := hivemind_dispatch_events_ext s .other
      obtain ⟨t1, ht1⟩ := ih (hivemind_dispatch s .other)
      exact ⟨t0 ++ t1, by rw [ht1, ht0, List.append_assoc]⟩

lemma hivemind_run_aux_init_mono (gout : GamePacket → List Nat) :
    ∀ (msgs : List ServerMsg) (s : HivemindState),
    s.initialized_bot = true →
    (hivemind_run_aux gout msgs s).initialized_bot = true := by
  intro msgs
  induction msgs with
  | nil =>
    intro s h
    cases hl : s.latest_packet with
    | none => simpa only [hivemind_run_aux, hl] using h
    | some p =>
      simp only [hivemind_run_aux, hl]
      have hfld := (hivemind_packet_processor_fields gout s p).1
      cases hp : hivemind_packet_processor gout s p with
      | mk s1 raised =>
        rw [hp] at hfld
        cases raised with
        | true => exact hfld.trans h
        | false => exact hfld.trans h
  | cons m rest ih =>
    intro s h
    cases m with
    | shutdown => exact h
    | gap =>
      cases hl : s.latest_packet with
      | none =>
        simp only [hivemind_run_aux, hl]
        exact ih s h
      | some p =>
        simp only [hivemind_run_aux, hl]
        have hfld := (hivemind_packet_processor_fields gout s p).1
        cases hp : hivemind_packet_processor gout s p with
        | mk s1 raised =>
          rw [hp] at hfld
          cases raised with
          | true => exact hfld.trans h
          | false => exact ih _ (hfld.trans h)
    | matchConfig cfg =>
      rw [hivemind_run_aux_cons gout _ rest s (by simp) (by simp)]
      exact ih _ (hivemind_dispatch_init_mono s _ h)
    | fieldInfo info =>
      rw [hivemind_run_aux_cons gout _ rest s (by simp) (by simp)]
      exact ih _ (hivemind_dispatch_init_mono s _ h)
    | controllableTeamInfo team first rest2 =>
      rw [hivemind_run_aux_cons gout _ rest s (by simp) (by simp)]
      exact ih _ (hivemind_dispatch_init_mono s _ h)
    | gamePacket p =>
      rw [hivemind_run_aux_cons gout _ rest s (by simp) (by simp)]
      exact ih _ (hivemind_dispatch_init_mono s _ h)
    | ballPrediction bp =>
      rw [hivemind_run_aux_cons gout _ rest s (by simp) (by simp)]
      exact ih _ (hivemind_dispatch_init_mono s _ h)
    | matchComm mc =>
      rw [hivemind_run_aux_cons gout _ rest s (by simp) (by simp)]
      exact ih _ (hivemind_dispatch_init_mono s _ h)
    | other =>
      rw [hivemind_run_aux_cons gout _ rest s (by simp) (by simp)]
      exact ih _ (hivemind_dispatch_init_mono s _ h)

lemma hivemind_run_aux_flags_eq (gout : GamePacket → List Nat) :
    ∀ (msgs : List ServerMsg) (s : HivemindState), no_shutdown msgs →
    no_gap msgs →
    (hivemind_run_aux gout msgs s).has_match_settings =
      (s.has_match_settings || msgs.any ServerMsg.isMatchConfigB) ∧
    (hivemind_run_aux gout msgs s).has_field_info =
      (s.has_field_info || msgs.any ServerMsg.isFieldInfoB) ∧
    (hivemind_run_aux gout msgs s).has_player_mapping =
      (s.has_player_mapping || msgs.any ServerMsg.isControllableTeamInfoB) := by
  intro msgs
  induction msgs with
  | nil =>
    intro s _ _
    cases hl : s.latest_packet with
    | none => simp [hivemind_run_aux, hl]
    | some p =>
      simp only [hivemind_run_aux, hl]
      obtain ⟨_, hms, hfi, hpm, _⟩ := hivemind_packet_processor_fields gout s p
      cases hp : hivemind_packet_processor gout s p with
      | mk s1 raised =>
        rw [hp] at hms hfi hpm
        dsimp only at hms hfi hpm
        cases raised with
        | true => refine ⟨?_, ?_, ?_⟩ <;> simp [hms, hfi, hpm]
        | false => refine ⟨?_, ?_, ?_⟩ <;> simp [hms, hfi, hpm]
  | cons m rest ih =>
    intro s hns hng
    have hsd : m ≠ ServerMsg.shutdown := by
      intro h
      exact hns (h ▸ List.mem_cons_self m rest)
    have hgp : m ≠ ServerMsg.gap := by
      intro h
      exact hng (h ▸ List.mem_cons_self m rest)
    have hrest : no_shutdown rest := fun h => hns (List.mem_cons_of_mem m h)
    have hgrest : no_gap rest := fun h => hng (List.mem_cons_of_mem m h)
    rw [hivemind_run_aux_cons gout m rest s hsd hgp]
    obtain ⟨e1, e2, e3⟩ := ih (hivemind_dispatch s m) hrest hgrest
    refine ⟨?_, ?_, ?_⟩
    · rw [e1, hivemind_dispatch_MS]
      simp [Bool.or_assoc]
    · rw [e2, hivemind_dispatch_FI]
      simp [Bool.or_assoc]
    · rw [e3, hivemind_dispatch_PM]
      simp [Bool.or_assoc]

lemma hivemind_foldl_inv (l : List ServerMsg) : ∀ s : HivemindState,
    HivemindInv s → HivemindInv (List.foldl hivemind_dispatch s l) := by
  induction l with
  | nil => exact fun s h => h
  | cons m rest ih => exact fun s h => ih _ (HivemindInv_dispatch s m h)

lemma hivemind_foldl_flags (l : List ServerMsg) : ∀ s : HivemindState,
    (List.foldl hivemind_dispatch s l).has_match_settings =
      (s.has_match_settings || l.any ServerMsg.isMatchConfigB) ∧
    (List.foldl hivemind_dispatch s l).has_field_info =
      (s.has_field_info || l.any ServerMsg.isFieldInfoB) ∧
    (List.foldl hivemind_dispatch s l).has_player_mapping =
      (s.has_player_mapping || l.any ServerMsg.isControllableTeamInfoB) := by
  induction l with
  | nil => intro s; simp
  | cons m rest ih =>
    intro s
    obtain ⟨e1, e2, e3⟩ := ih (hivemind_dispatch s m)
    refine ⟨?_, ?_, ?_⟩
    · rw [List.foldl_cons, e1, hivemind_dispatch_MS]
      simp [Bool.or_assoc]
    · rw [List.foldl_cons, e2, hivemind_dispatch_FI]
      simp [Bool.or_assoc]
    · rw [List.foldl_cons, e3, hivemind_dispatch_PM]
      simp [Bool.or_assoc]

lemma hivemind_foldl_go (l : List ServerMsg) : ∀ s : HivemindState,
    has_go (List.foldl hivemind_dispatch s l).events = has_go s.events := by
  induction l with
  | nil => exact fun s => rfl
  | cons m rest ih =>
    intro s
    rw [List.foldl_cons, ih, hivemind_dispatch_go]

lemma hivemind_run_aux_phase1 (gout : GamePacket → List Nat) :
    ∀ (l1 l2 : List ServerMsg) (s : HivemindState),
    no_shutdown l1 → l1.any ServerMsg.isPacketB = false →
    s.latest_packet = none →
    hivemind_run_aux gout (l1 ++ l2) s =
      hivemind_run_aux gout l2 (List.foldl hivemind_dispatch s l1) := by
  intro l1
  induction l1 with
  | nil => exact fun l2 s _ _ _ => rfl
  | cons m rest ih =>
    intro l2 s hns hnp hlat
    have hsd : m ≠ ServerMsg.shutdown := by
      intro h
      exact hns (h ▸ List.mem_cons_self m rest)
    have hrest : no_shutdown rest := fun h => hns (List.mem_cons_of_mem m h)
    have h12 : m.isPacketB = false ∧ rest.any ServerMsg.isPacketB = false := by
      simpa using hnp
    by_cases hgp : m = ServerMsg.gap
    · subst hgp
      show hivemind_run_aux gout (ServerMsg.gap :: (rest ++ l2)) s = _
      simp only [hivemind_run_aux, hlat]
      rw [ih l2 s hrest h12.2 hlat]
      rfl
    · rw [show (m :: rest) ++ l2 = m :: (rest ++ l2) from rfl,
        hivemind_run_aux_cons gout m (rest ++ l2) s hsd hgp,
        ih l2 (hivemind_dispatch s m) hrest h12.2 (by
          rw [hivemind_dispatch_latest,
            pending_after_single_not_packet _ _ h12.1, hlat])]
      rfl

lemma hivemind_init_latch (gout : GamePacket → List Nat)
    (msgs : List ServerMsg) :
    count_init (hivemind_run gout msgs).events ≤ 1 ∧
    count_ic (hivemind_run gout msgs).events =
      count_init (hivemind_run gout msgs).events ∧
    (count_init (hivemind_run gout msgs).events = 1 →
      init_adjacent (hivemind_run gout msgs).events) := by
  obtain ⟨c1, c2, c3, c4⟩ :=
    HivemindInv_run_aux gout msgs hivemind_initial HivemindInv_initial
  refine ⟨?_, ?_, ?_⟩
  · rw [show hivemind_run gout msgs = hivemind_run_aux gout msgs
      hivemind_initial from rfl, c2]
    cases (hivemind_run_aux gout msgs hivemind_initial).initialized_bot <;> simp
  · rw [show hivemind_run gout msgs = hivemind_run_aux gout msgs
      hivemind_initial from rfl, c2, c3]
  · intro h1
    rw [show hivemind_run gout msgs = hivemind_run_aux gout msgs
      hivemind_initial from rfl] at h1 ⊢
    cases hI : (hivemind_run_aux gout msgs hivemind_initial).initialized_bot with
    | true => exact c4 hI
    | false =>
      rw [hI] at c2
      simp at c2
      rw [c2] at h1
      exact absurd h1 (by decide)

lemma hivemind_init_only_after (gout : GamePacket → List Nat)
    (msgs : List ServerMsg) (hns : no_shutdown msgs) (hng : no_gap msgs)
    (hmiss : msgs.any ServerMsg.isMatchConfigB = false ∨
      msgs.any ServerMsg.isFieldInfoB = false ∨
      msgs.any ServerMsg.isControllableTeamInfoB = false) :
    count_init (hivemind_run gout msgs).events = 0 := by
  obtain ⟨c1, c2, c3, c4⟩ :=
    HivemindInv_run_aux gout msgs hivemind_initial HivemindInv_initial
  obtain ⟨f1, f2, f3⟩ :=
    hivemind_run_aux_flags_eq gout msgs hivemind_initial hns hng
  rw [show hivemind_run gout msgs = hivemind_run_aux gout msgs
    hivemind_initial from rfl, c2]
  have hinit : (hivemind_run_aux gout msgs hivemind_initial).initialized_bot
      = false := by
    rw [c1, f1, f2, f3]
    rcases hmiss with h | h | h <;> rw [h] <;> simp [hivemind_initial]
  rw [hinit]
  rfl

lemma hivemind_init_exactly_once (gout : GamePacket → List Nat)
    (msgs : List ServerMsg) (hns : no_shutdown msgs) (hng : no_gap msgs)
    (hmc : msgs.any ServerMsg.isMatchConfigB = true)
    (hfi : msgs.any ServerMsg.isFieldInfoB = true)
    (hcti : msgs.any ServerMsg.isControllableTeamInfoB = true) :
    count_init (hivemind_run gout msgs).events = 1 ∧
    count_ic (hivemind_run gout msgs).events = 1 ∧
    init_adjacent (hivemind_run gout msgs).events := by
  obtain ⟨c1, c2, c3, c4⟩ :=
    HivemindInv_run_aux gout msgs hivemind_initial HivemindInv_initial
  obtain ⟨f1, f2, f3⟩ :=
    hivemind_run_aux_flags_eq gout msgs hivemind_initial hns hng
  have hinit : (hivemind_run_aux gout msgs hivemind_initial).initialized_bot
      = true := by
    rw [c1, f1, f2, f3, hmc, hfi, hcti]
    simp
  rw [show hivemind_run gout msgs = hivemind_run_aux gout msgs
    hivemind_initial from rfl, c2, c3, hinit]
  exact ⟨rfl, rfl, c4 hinit⟩

lemma hivemind_go_after_init (gout : GamePacket → List Nat)
    (l1 l2 : List ServerMsg) (hns : no_shutdown l1)
    (hnp : l1.any ServerMsg.isPacketB = false)
    (hmc : l1.any ServerMsg.isMatchConfigB = true)
    (hfi : l1.any ServerMsg.isFieldInfoB = true)
    (hcti : l1.any ServerMsg.isControllableTeamInfoB = true) :
    ∀ (i j : Nat) (p : GamePacket),
      (hivemind_run gout (l1 ++ l2)).events[i]? =
        some (AgentEvent.getOutputCalled p) →
      (hivemind_run gout (l1 ++ l2)).events[j]? =
        some AgentEvent.initializeCalled →
      j < i := by
  intro i j p hi hj
  rw [show hivemind_run gout (l1 ++ l2) = hivemind_run_aux gout (l1 ++ l2)
    hivemind_initial from rfl,
    hivemind_run_aux_phase1 gout l1 l2 hivemind_initial hns hnp rfl] at hi hj
  set s1 := List.foldl hivemind_dispatch hivemind_initial l1 with hs1
  have hinv1 : HivemindInv s1 :=
    hivemind_foldl_inv l1 hivemind_initial HivemindInv_initial
  obtain ⟨f1, f2, f3⟩ := hivemind_foldl_flags l1 hivemind_initial
  have hs1init : s1.initialized_bot = true := by
    rw [hinv1.1, f1, f2, f3, hmc, hfi, hcti]
    simp
  have hc1 : count_init s1.events = 1 := by
    rw [hinv1.2.1, hs1init]
    decide
  have hgo1 : has_go s1.events = false := hivemind_foldl_go l1 hivemind_initial
  have hinvf : HivemindInv (hivemind_run_aux gout l2 s1) :=
    HivemindInv_run_aux gout l2 s1 hinv1
  have hfinit : (hivemind_run_aux gout l2 s1).initialized_bot = true :=
    hivemind_run_aux_init_mono gout l2 s1 hs1init
  have hcf : count_init (hivemind_run_aux gout l2 s1).events = 1 := by
    rw [hinvf.2.1, hfinit]
    decide
  obtain ⟨t, ht⟩ := hivemind_run_aux_events_ext gout l2 s1
  have hct : count_init t = 0 := by
    rw [ht, count_init_append, hc1] at hcf
    omega
  rw [ht] at hi hj
  have hjlt : j < s1.events.length := by
    by_contra hge
    push_neg at hge
    rw [List.getElem?_append_right hge] at hj
    have hmem : AgentEvent.initializeCalled ∈ t := by
      obtain ⟨hb, heq⟩ := List.getElem?_eq_some_iff.mp hj
      exact heq ▸ List.getElem_mem hb
    have hie : is_init_event AgentEvent.initializeCalled = true := rfl
    have hpos : 0 < count_init t := by
      rw [count_init]
      have hmf := List.mem_filter.mpr ⟨hmem, hie⟩
      exact List.length_pos.mpr
        (fun hnil => by rw [hnil] at hmf; exact List.not_mem_nil _ hmf)
    omega
  have hige : s1.events.length ≤ i := by
    by_contra hlt
    push_neg at hlt
    rw [List.getElem?_append_left hlt] at hi
    have hmem : AgentEvent.getOutputCalled p ∈ s1.events := by
      obtain ⟨hb, heq⟩ := List.getElem?_eq_some_iff.mp hi
      exact heq ▸ List.getElem_mem hb
    have hgo : has_go s1.events = true :=
      List.any_eq_true.mpr ⟨_, hmem, rfl⟩
    rw [hgo1] at hgo
    exact absurd hgo (by decide)
  omega

/-- **C2, counterexample.** The claim says `initialize` runs strictly
before any `get_output` user call. Deliver a match config, field info and
a game packet, let the socket run empty (`gap`), then deliver the
controllable-team info: the drain processes the buffered packet first —
`Bot.index` is still `-1`, so the `len(players) <= index` guard cannot
drop it — and `get_output` (trace index 1) runs before `initialize`
(trace index 3). -/
theorem claim2_counterexample :
    (bot_run [.matchConfig ⟨[], []⟩, .fieldInfo 0, .gamePacket ⟨[9]⟩, .gap,
      .controllableTeamInfo 0 ⟨5, 0⟩ []]).events =
      [AgentEvent.packetProcessorCalled ⟨[9]⟩,
        AgentEvent.getOutputCalled ⟨[9]⟩, AgentEvent.playerInputSent (-1),
        AgentEvent.initializeCalled, AgentEvent.initCompleteSent] ∧
    (bot_run [.matchConfig ⟨[], []⟩, .fieldInfo 0, .gamePacket ⟨[9]⟩, .gap,
      .controllableTeamInfo 0 ⟨5, 0⟩ []]).events[1]? =
      some (AgentEvent.getOutputCalled ⟨[9]⟩) ∧
    (bot_run [.matchConfig ⟨[], []⟩, .fieldInfo 0, .gamePacket ⟨[9]⟩, .gap,
      .controllableTeamInfo 0 ⟨5, 0⟩ []]).events[3]? =
      some AgentEvent.initializeCalled := by
  refine ⟨?_, ?_, ?_⟩ <;> decide

/-- **C2, amended.** For Bot and Hivemind alike: `initialize` is entered
at most once per connection and `InitComplete` is sent exactly as often,
immediately after `initialize` returns; `initialize` is never entered
unless all three of match config, field info and controllable-team info
have arrived, and (in a shutdown-free, gap-free sequence) it is entered
exactly once when they all have; and when the three prerequisites form a
packet-free, shutdown-free prefix of the deliveries, every
`get_output`/`get_outputs` call comes strictly after `initialize`. (As
originally stated the claim fails: a packet drained before the
controllable-team info arrives reaches `get_output` first, see the
counterexample.) -/
theorem claim2_initialization :
    (∀ msgs : List ServerMsg,
      count_init (bot_run msgs).events ≤ 1 ∧
      count_ic (bot_run msgs).events = count_init (bot_run msgs).events ∧
      (count_init (bot_run msgs).events = 1 →
        init_adjacent (bot_run msgs).events)) ∧
    (∀ msgs : List ServerMsg, no_shutdown msgs →
      (msgs.any ServerMsg.isMatchConfigB = false ∨
        msgs.any ServerMsg.isFieldInfoB = false ∨
        msgs.any ServerMsg.isControllableTeamInfoB = false) →
      count_init (bot_run msgs).events = 0) ∧
    (∀ msgs : List ServerMsg, no_shutdown msgs →
      msgs.any ServerMsg.isMatchConfigB = true →
      msgs.any ServerMsg.isFieldInfoB = true →
      msgs.any ServerMsg.isControllableTeamInfoB = true →
      count_init (bot_run msgs).events = 1 ∧
      count_ic (bot_run msgs).events = 1 ∧
      init_adjacent (bot_run msgs).events) ∧
    (∀ l1 l2 : List ServerMsg, no_shutdown l1 →
      l1.any ServerMsg.isPacketB = false →
      l1.any ServerMsg.isMatchConfigB = true →
      l1.any ServerMsg.isFieldInfoB = true →
      l1.any ServerMsg.isControllableTeamInfoB = true →
      ∀ (i j : Nat) (p : GamePacket),
        (bot_run (l1 ++ l2)).events[i]? =
          some (AgentEvent.getOutputCalled p) →
        (bot_run (l1 ++ l2)).events[j]? = some AgentEvent.initializeCalled →
        j < i) ∧
    (∀ (gout : GamePacket → List Nat) (msgs : List ServerMsg),
      count_init (hivemind_run gout msgs).events ≤ 1 ∧
      count_ic (hivemind_run gout msgs).events =
        count_init (hivemind_run gout msgs).events ∧
      (count_init (hivemind_run gout msgs).events = 1 →
        init_adjacent (hivemind_run gout msgs).events)) ∧
    (∀ (gout : GamePacket → List Nat) (msgs : List ServerMsg),
      no_shutdown msgs → no_gap msgs →
      (msgs.any ServerMsg.isMatchConfigB = false ∨
        msgs.any ServerMsg.isFieldInfoB = false ∨
        msgs.any ServerMsg.isControllableTeamInfoB = false) →
      count_init (hivemind_run gout msgs).events = 0) ∧
    (∀ (gout : GamePacket → List Nat) (msgs : List ServerMsg),
      no_shutdown msgs → no_gap msgs →
      msgs.any ServerMsg.isMatchConfigB = true →
      msgs.any ServerMsg.isFieldInfoB = true →
      msgs.any ServerMsg.isControllableTeamInfoB = true →
      count_init (hivemind_run gout msgs).events = 1 ∧
      count_ic (hivemind_run gout msgs).events = 1 ∧
      init_adjacent (hivemind_run gout msgs).events) ∧
    (∀ (gout : GamePacket → List Nat) (l1 l2 : List ServerMsg),
      no_shutdown l1 → l1.any ServerMsg.isPacketB = false →
      l1.any ServerMsg.isMatchConfigB = true →
      l1.any ServerMsg.isFieldInfoB = true →
      l1.any ServerMsg.isControllableTeamInfoB = true →
      ∀ (i j : Nat) (p : GamePacket),
        (hivemind_run gout (l1 ++ l2)).events[i]? =
          some (AgentEvent.getOutputCalled p) →
        (hivemind_run gout (l1 ++ l2)).events[j]? =
          some AgentEvent.initializeCalled →
        j < i) :=
  ⟨bot_init_latch, bot_init_only_after, bot_init_exactly_once,
    bot_go_after_init, hivemind_init_latch, hivemind_init_only_after,
    hivemind_init_exactly_once, hivemind_go_after_init⟩

/-- Witness for C2 (amended) at concrete arrival sequences: the complete
prerequisite handshake followed by one packet, for both Bot and
Hivemind. -/
theorem claim2_initialization_witness :
    (count_init (bot_run [.matchConfig ⟨[], []⟩, .fieldInfo 0,
      .controllableTeamInfo 0 ⟨5, 0⟩ [], .gamePacket ⟨[7]⟩]).events = 1 ∧
      count_ic (bot_run [.matchConfig ⟨[], []⟩, .fieldInfo 0,
        .controllableTeamInfo 0 ⟨5, 0⟩ [], .gamePacket ⟨[7]⟩]).events = 1 ∧
      init_adjacent (bot_run [.matchConfig ⟨[], []⟩, .fieldInfo 0,
        .controllableTeamInfo 0 ⟨5, 0⟩ [], .gamePacket ⟨[7]⟩]).events) ∧
    count_init (bot_run [.fieldInfo 0, .gamePacket ⟨[7]⟩]).events = 0 ∧
    (0 : Nat) < 3 ∧
    count_init (hivemind_run (fun _ => [0]) [.matchConfig ⟨[], []⟩,
      .fieldInfo 0, .controllableTeamInfo 0 ⟨5, 0⟩ [],
      .gamePacket ⟨[7]⟩]).events = 1 := by
  refine ⟨?_, ?_, ?_, ?_⟩
  · exact claim2_initialization.2.2.1 _ (by decide) (by decide) (by decide)
      (by decide)
  · exact claim2_initialization.2.1 _ (by decide) (by decide)
  · exact claim2_initialization.2.2.2.1 [.matchConfig ⟨[], []⟩, .fieldInfo 0,
      .controllableTeamInfo 0 ⟨5, 0⟩ []] [.gamePacket ⟨[7]⟩] (by decide)
      (by decide) (by decide) (by decide) (by decide) 3 0 ⟨[7]⟩
      (by decide) (by decide)
  · exact (claim2_initialization.2.2.2.2.2.2.1 (fun _ => [0]) _ (by decide)
      (by decide) (by decide) (by decide) (by decide)).1
